import Mathlib

/-!
WebUSBCDC: control-request dispatcher, endpoint configuration and data path.

A shallow embedding of `src/WebUSBCDC.cpp` / `src/WebUSBCDC.h`.

* Machine integers are natural numbers; no arithmetic of the class can overflow (it only
  compares and stores constants), so the statements hold for every natural number, the
  8/16-bit ones included.
* The macros that come from headers outside `src/` (`USBDevice_Types.h`, `USBDescriptor.h`,
  `WinUSB.h`, `WebUSB.h`, the target's `USBEndpoints_*.h`) are fields of `Consts` and of
  `DescriptorConsts`; every definition takes them as a parameter.
* The USB engine (`USBDevice`) and the vendor-request handler (`WebUSBDevice`) are
  collaborators: the class state records every call made to them, and their answers come from
  an arbitrary `Collaborators` record that may depend on the whole call history.
-/

namespace WebUSBCDC

/-! ## Constants -/

/-- Macros used by `WebUSBCDC.cpp` whose definitions live in headers that are not under
`src/`. They are parameters of the embedding. -/
structure Consts where
  STANDARD_TYPE : Nat
  CLASS_TYPE : Nat
  VENDOR_TYPE : Nat
  DEVICE_RECIPIENT : Nat
  INTERFACE_RECIPIENT : Nat
  GET_DESCRIPTOR : Nat
  STRING_DESCRIPTOR : Nat
  DEVICE_TO_HOST : Nat
  HOST_TO_DEVICE : Nat
  WINUSB_VENDOR_CODE : Nat
  WINUSB_GET_COMPATIBLE_ID_FEATURE_DESCRIPTOR : Nat
  WINUSB_GET_EXTENDED_PROPERTIES_OS_FEATURE_DESCRIPTOR : Nat
  COMPATIBLE_ID_VERSION_1_0 : Nat
  EPINT_IN : Nat
  EPBULK_IN : Nat
  EPBULK_OUT : Nat
  EP5IN : Nat
  EP5OUT : Nat
  MAX_PACKET_SIZE_EPINT : Nat
  MAX_PACKET_SIZE_EPBULK : Nat
  deriving DecidableEq, Repr

/-- The values the USB 2.0 chapter 9 encoding, the Microsoft OS 1.0 descriptor layout and an
mbed LPC-style endpoint map give to the parameters; used for concrete evaluations. -/
def usbConsts : Consts where
  STANDARD_TYPE := 0
  CLASS_TYPE := 1
  VENDOR_TYPE := 2
  DEVICE_RECIPIENT := 0
  INTERFACE_RECIPIENT := 1
  GET_DESCRIPTOR := 6
  STRING_DESCRIPTOR := 3
  DEVICE_TO_HOST := 1
  HOST_TO_DEVICE := 0
  WINUSB_VENDOR_CODE := 0x21
  WINUSB_GET_COMPATIBLE_ID_FEATURE_DESCRIPTOR := 0x04
  WINUSB_GET_EXTENDED_PROPERTIES_OS_FEATURE_DESCRIPTOR := 0x05
  COMPATIBLE_ID_VERSION_1_0 := 0x0100
  EPINT_IN := 3
  EPBULK_IN := 5
  EPBULK_OUT := 4
  EP5IN := 11
  EP5OUT := 10
  MAX_PACKET_SIZE_EPINT := 64
  MAX_PACKET_SIZE_EPBULK := 64

/-- Macro `#define DEFAULT_CONFIGURATION (1)` -/
def DEFAULT_CONFIGURATION : Nat := 1

/-- Macro `#define CDC_SET_LINE_CODING 0x20` -/
def CDC_SET_LINE_CODING : Nat := 0x20

/-- Macro `#define CDC_GET_LINE_CODING 0x21` -/
def CDC_GET_LINE_CODING : Nat := 0x21

/-- Macro `#define CDC_SET_CONTROL_LINE_STATE 0x22` -/
def CDC_SET_CONTROL_LINE_STATE : Nat := 0x22

/-- Macro `#define CLS_DTR (1 << 0)` -/
def CLS_DTR : Nat := 1 <<< 0

/-- Macro `#define CLS_RTS (1 << 1)` -/
def CLS_RTS : Nat := 1 <<< 1

/-- Macro `#define CDC_INT_INTERFACE_NUMBER (0)` -/
def CDC_INT_INTERFACE_NUMBER : Nat := 0

/-- Macro `#define CDC_INTERFACE_NUMBER (1)` -/
def CDC_INTERFACE_NUMBER : Nat := 1

/-- Macro `#define WEBUSB_INTERFACE_NUMBER (2)` -/
def WEBUSB_INTERFACE_NUMBER : Nat := 2

/-- Macro `#define MAX_CDC_REPORT_SIZE MAX_PACKET_SIZE_EPBULK` -/
def MAX_CDC_REPORT_SIZE (c : Consts) : Nat := c.MAX_PACKET_SIZE_EPBULK

/-- Macro `#define CDC_ENDPOINT_INT (EPINT_IN)` -/
def CDC_ENDPOINT_INT (c : Consts) : Nat := c.EPINT_IN

/-- Macro `#define CDC_ENDPOINT_IN (EPBULK_IN)` -/
def CDC_ENDPOINT_IN (c : Consts) : Nat := c.EPBULK_IN

/-- Macro `#define CDC_ENDPOINT_OUT (EPBULK_OUT)` -/
def CDC_ENDPOINT_OUT (c : Consts) : Nat := c.EPBULK_OUT

/-- Macro `#define WEBUSB_ENDPOINT_IN (EP5IN)` -/
def WEBUSB_ENDPOINT_IN (c : Consts) : Nat := c.EP5IN

/-- Macro `#define WEBUSB_ENDPOINT_OUT (EP5OUT)` -/
def WEBUSB_ENDPOINT_OUT (c : Consts) : Nat := c.EP5OUT

/-- Modelled from the spec: the macro `LSB` of `USBDescriptor.h` (not under `src/`), the low
byte of a 16-bit constant. -/
def LSB (n : Nat) : Nat := n % 256

/-- Modelled from the spec: the macro `MSB` of `USBDescriptor.h` (not under `src/`), the high
byte of a 16-bit constant. -/
def MSB (n : Nat) : Nat := n / 256 % 256

/-- Modelled from the spec: the macro `DESCRIPTOR_TYPE` of `USBDevice_Types.h` (not under
`src/`): the descriptor type is the high byte of `wValue`. -/
def DESCRIPTOR_TYPE (wValue : Nat) : Nat := wValue / 256

/-- Modelled from the spec: the macro `DESCRIPTOR_INDEX` of `USBDevice_Types.h` (not under
`src/`): the descriptor index is the low byte of `wValue`. -/
def DESCRIPTOR_INDEX (wValue : Nat) : Nat := wValue % 256

/-! ## Data model -/

/-- The decoded `bmRequestType` bit-field of a setup packet (`Type_` is the field `Type`,
a reserved word here). -/
structure BmRequestType where
  dataTransferDirection : Nat
  Type_ : Nat
  Recipient : Nat
  deriving DecidableEq, Repr

/-- The setup packet of a control transfer. -/
structure SETUP_PACKET where
  bmRequestType : BmRequestType
  bRequest : Nat
  wValue : Nat
  wIndex : Nat
  wLength : Nat
  deriving DecidableEq, Repr

/-- What `transfer->ptr` can point at: nothing, one of the four byte tables this file hands to
the engine, or a buffer that belongs to somebody else (identified by its address). -/
inductive Ptr where
  | null
  | msftStringDescriptor
  | msftCompatibleIdDescriptor
  | msftExtendedPropertiesDescriptor
  | cdc_line_coding
  | foreign (addr : Nat)
  deriving DecidableEq, Repr

/-- The engine's state of the control transfer in flight (`getTransferPtr()`), restricted to
the setup packet and the fields a request handler declares its answer in. -/
structure CONTROL_TRANSFER where
  setup : SETUP_PACKET
  ptr : Ptr
  remaining : Nat
  direction : Nat
  notify : Bool
  deriving DecidableEq, Repr

/-- A call made by the class to one of its collaborators. -/
inductive Call where
  | addEndpoint (endpoint maxPacket : Nat)
  | readStart (endpoint maxPacket : Nat)
  | write (endpoint : Nat) (buffer : List Nat) (size maxSize : Nat)
  | readEP (endpoint maxSize : Nat)
  | readEP_NB (endpoint maxSize : Nat)
  | webusbRequest
  deriving DecidableEq, Repr

/-- The state the methods of the class act on: the engine's control transfer, the member
`cdc_connected`, the file-static `cdc_line_coding`, and the collaborator calls issued so far
(oldest first). -/
structure Device where
  transfer : CONTROL_TRANSFER
  cdc_connected : Bool
  cdc_line_coding : List Nat
  calls : List Call
  deriving DecidableEq, Repr

/-- Behaviour of the collaborators. Every answer may depend on the calls made before.
* `answer`: the boolean an engine call returns;
* `received`: the bytes a receive call stores in the caller's buffer;
* `webusbRequest`: `WebUSBDevice::USBCallback_request`, which sees the control transfer, may
  rewrite it, and says whether it handled the request. -/
structure Collaborators where
  answer : List Call → Call → Bool
  received : List Call → Call → List Nat
  webusbRequest : List Call → CONTROL_TRANSFER → CONTROL_TRANSFER × Bool

/-- Issue one engine call: it is appended to the history and answered by the collaborator. -/
def Collaborators.call (e : Collaborators) (k : Call) (st : Device) : Device × Bool :=
  ({ st with calls := st.calls ++ [k] }, e.answer st.calls k)

/-- Initial value of the file-static table: `static uint8_t cdc_line_coding[7]= {0x80, 0x25, 0x00, 0x00, 0x00, 0x00, 0x08};` -/
def cdc_line_coding_init : List Nat := [0x80, 0x25, 0x00, 0x00, 0x00, 0x00, 0x08]

/-- A control transfer for setup packet `s` in which nothing has been declared yet: no
buffer, nothing remaining, direction host-to-device, no notification requested. -/
def resetTransfer (c : Consts) (s : SETUP_PACKET) : CONTROL_TRANSFER :=
  { setup := s, ptr := Ptr.null, remaining := 0, direction := c.HOST_TO_DEVICE, notify := false }

/-- The device right after construction (`cdc_connected = false`, initial line coding, no
collaborator call yet), with setup packet `s` in flight. -/
def freshDevice (c : Consts) (s : SETUP_PACKET) : Device :=
  { transfer := resetTransfer c s, cdc_connected := false,
    cdc_line_coding := cdc_line_coding_init, calls := [] }

/-! ## Byte tables of the dispatcher -/

/-- Table `msftStringDescriptor` (lines 121-127). -/
def msftStringDescriptor (c : Consts) : List Nat :=
  [ 0x12,                                      /- bLength -/
    c.STRING_DESCRIPTOR,                       /- bDescriptorType -/
    'M'.toNat, 0, 'S'.toNat, 0, 'F'.toNat, 0, 'T'.toNat, 0,
    '1'.toNat, 0, '0'.toNat, 0, '0'.toNat, 0,  /- qWSignature - MSFT100 -/
    c.WINUSB_VENDOR_CODE,                      /- bMS_VendorCode -/
    0x00 ]                                     /- bPad -/

/-- Table `msftCompatibleIdDescriptor` (lines 141-154). -/
def msftCompatibleIdDescriptor (c : Consts) : List Nat :=
  [ 0x28, 0x00, 0x00, 0x00,                    /- dwLength -/
    LSB c.COMPATIBLE_ID_VERSION_1_0,           /- bcdVersion (LSB) -/
    MSB c.COMPATIBLE_ID_VERSION_1_0,           /- bcdVersion (MSB) -/
    LSB c.WINUSB_GET_COMPATIBLE_ID_FEATURE_DESCRIPTOR, /- wIndex (LSB) -/
    MSB c.WINUSB_GET_COMPATIBLE_ID_FEATURE_DESCRIPTOR, /- wIndex (MSB) -/
    0x01,
    0, 0, 0, 0, 0, 0, 0,                       /- reserved -/
    WEBUSB_INTERFACE_NUMBER,                   /- bFirstInterfaceNumber -/
    0x00,                                      /- reserved -/
    'W'.toNat, 'I'.toNat, 'N'.toNat, 'U'.toNat, 'S'.toNat, 'B'.toNat, 0, 0, /- compatible ID -/
    0, 0, 0, 0, 0, 0, 0, 0,                    /- subCompatibleID -/
    0, 0, 0, 0, 0, 0 ]                         /- reserved -/

/-- Table `msftExtendedPropertiesDescriptor` (lines 171-188). -/
def msftExtendedPropertiesDescriptor (c : Consts) : List Nat :=
  [ 0x8c, 0x00, 0x00, 0x00,                    /- dwLength -/
    LSB c.COMPATIBLE_ID_VERSION_1_0,           /- bcdVersion (LSB) -/
    MSB c.COMPATIBLE_ID_VERSION_1_0,           /- bcdVersion (MSB) -/
    LSB c.WINUSB_GET_EXTENDED_PROPERTIES_OS_FEATURE_DESCRIPTOR, /- wIndex (LSB) -/
    MSB c.WINUSB_GET_EXTENDED_PROPERTIES_OS_FEATURE_DESCRIPTOR, /- wIndex (MSB) -/
    0x01, 0x00,                                /- Number of sections -/
    0x82, 0x00, 0x00, 0x00,                    /- Size of property section -/
    0x01, 0x00, 0x00, 0x00,                    /- Data type (1 = REG_SZ) -/
    0x28, 0x00,                                /- property name length (40) -/
    'D'.toNat, 0, 'e'.toNat, 0, 'v'.toNat, 0, 'i'.toNat, 0, 'c'.toNat, 0, 'e'.toNat, 0,
    'I'.toNat, 0, 'n'.toNat, 0, 't'.toNat, 0, 'e'.toNat, 0, 'r'.toNat, 0, 'f'.toNat, 0,
    'a'.toNat, 0, 'c'.toNat, 0, 'e'.toNat, 0, 'G'.toNat, 0, 'U'.toNat, 0, 'I'.toNat, 0,
    'D'.toNat, 0, 0, 0,
    0x4e, 0x00, 0x00, 0x00,                    /- property data length (78) -/
    '\x7b'.toNat, 0, 'F'.toNat, 0, '3'.toNat, 0, '5'.toNat, 0,
    'E'.toNat, 0, '1'.toNat, 0, 'B'.toNat, 0, '9'.toNat, 0,
    'F'.toNat, 0, '-'.toNat, 0, '9'.toNat, 0, 'E'.toNat, 0,
    'F'.toNat, 0, '1'.toNat, 0, '-'.toNat, 0, '4'.toNat, 0,
    'D'.toNat, 0, '7'.toNat, 0, '1'.toNat, 0, '-'.toNat, 0,
    '9'.toNat, 0, '9'.toNat, 0, 'D'.toNat, 0, 'C'.toNat, 0,
    '-'.toNat, 0, 'B'.toNat, 0, '1'.toNat, 0, 'C'.toNat, 0,
    'B'.toNat, 0, 'C'.toNat, 0, '8'.toNat, 0, '0'.toNat, 0,
    'E'.toNat, 0, 'C'.toNat, 0, '1'.toNat, 0, '4'.toNat, 0,
    '3'.toNat, 0, '\x7d'.toNat, 0, 0, 0 ]

/-- The bytes `p` points at, for the tables owned by this file. -/
def bytesAt (c : Consts) (st : Device) : Ptr → Option (List Nat)
  | Ptr.msftStringDescriptor => some (msftStringDescriptor c)
  | Ptr.msftCompatibleIdDescriptor => some (msftCompatibleIdDescriptor c)
  | Ptr.msftExtendedPropertiesDescriptor => some (msftExtendedPropertiesDescriptor c)
  | Ptr.cdc_line_coding => some st.cdc_line_coding
  | Ptr.null => none
  | Ptr.foreign _ => none

/-- The response a device-to-host transfer sends: the first `remaining` bytes at `ptr`. -/
def response (c : Consts) (st : Device) : Option (List Nat) :=
  (bytesAt c st st.transfer.ptr).map (List.take st.transfer.remaining)

/-! ## The request predicates of the dispatcher -/

/-- Condition of the first branch (lines 116-119): the Microsoft OS 1.0 string request. -/
abbrev isMsftStringRequest (c : Consts) (s : SETUP_PACKET) : Prop :=
  s.bmRequestType.Type_ = c.STANDARD_TYPE ∧
  s.bRequest = c.GET_DESCRIPTOR ∧
  DESCRIPTOR_TYPE s.wValue = c.STRING_DESCRIPTOR ∧
  DESCRIPTOR_INDEX s.wValue = 0xEE

/-- Condition of the second branch (lines 136-139): the compatible-ID request. -/
abbrev isCompatibleIdRequest (c : Consts) (s : SETUP_PACKET) : Prop :=
  s.bmRequestType.Type_ = c.VENDOR_TYPE ∧
  s.bmRequestType.Recipient = c.DEVICE_RECIPIENT ∧
  s.bRequest = c.WINUSB_VENDOR_CODE ∧
  s.wIndex = c.WINUSB_GET_COMPATIBLE_ID_FEATURE_DESCRIPTOR

/-- Condition of the third branch (lines 164-169): the extended-properties request. -/
abbrev isExtendedPropertiesRequest (c : Consts) (s : SETUP_PACKET) : Prop :=
  s.bmRequestType.Type_ = c.VENDOR_TYPE ∧
  s.bmRequestType.Recipient = c.INTERFACE_RECIPIENT ∧
  s.bRequest = c.WINUSB_VENDOR_CODE ∧
  (s.wIndex = c.WINUSB_GET_EXTENDED_PROPERTIES_OS_FEATURE_DESCRIPTOR ∨
   s.wIndex = WEBUSB_INTERFACE_NUMBER)

/-- Condition of the class block (line 196) together with one `case` label of its switch. -/
abbrev isClassRequest (c : Consts) (code : Nat) (s : SETUP_PACKET) : Prop :=
  s.bmRequestType.Type_ = c.CLASS_TYPE ∧ s.bRequest = code

/-! ## The operations of the class -/

/-- The `if / else if / else if` chain of `USBCallback_request` (lines 116-194), acting on the
device and on the local `success`. -/
def osDescriptorChain (c : Consts) (r : Device × Bool) : Device × Bool :=
  let st := r.1
  if isMsftStringRequest c st.transfer.setup then
    ({ st with transfer := { st.transfer with
          remaining := (msftStringDescriptor c).headD 0,
          ptr := Ptr.msftStringDescriptor,
          direction := c.DEVICE_TO_HOST } }, true)
  else if isCompatibleIdRequest c st.transfer.setup then
    ({ st with transfer := { st.transfer with
          remaining := (msftCompatibleIdDescriptor c).length,
          ptr := Ptr.msftCompatibleIdDescriptor,
          direction := c.DEVICE_TO_HOST } }, true)
  else if isExtendedPropertiesRequest c st.transfer.setup then
    ({ st with transfer := { st.transfer with
          remaining := (msftExtendedPropertiesDescriptor c).length,
          ptr := Ptr.msftExtendedPropertiesDescriptor,
          direction := c.DEVICE_TO_HOST } }, true)
  else r

/-- The CDC class block of `USBCallback_request` (lines 196-221): a separate `if` with a
`switch` on `bRequest`, run after the chain whatever the chain did. -/
def cdcClassBlock (c : Consts) (r : Device × Bool) : Device × Bool :=
  let st := r.1
  if st.transfer.setup.bmRequestType.Type_ = c.CLASS_TYPE then
    if st.transfer.setup.bRequest = CDC_GET_LINE_CODING then
      ({ st with transfer := { st.transfer with
            remaining := 7,
            ptr := Ptr.cdc_line_coding,
            direction := c.DEVICE_TO_HOST } }, true)
    else if st.transfer.setup.bRequest = CDC_SET_LINE_CODING then
      ({ st with transfer := { st.transfer with
            remaining := 7,
            notify := true } }, true)
    else if st.transfer.setup.bRequest = CDC_SET_CONTROL_LINE_STATE then
      if st.transfer.setup.wValue &&& CLS_DTR ≠ 0 then
        ({ st with cdc_connected := true }, true)
      else
        ({ st with cdc_connected := false }, true)
    else r
  else r

/-- The tail of `USBCallback_request` (lines 224-229): when `success` is still false the
request goes to `WebUSBDevice::USBCallback_request`, whose answer is returned. -/
def webusbFallback (e : Collaborators) (r : Device × Bool) : Device × Bool :=
  let st := r.1
  if !r.2 then
    let a := e.webusbRequest st.calls st.transfer
    ({ st with transfer := a.1, calls := st.calls ++ [Call.webusbRequest] }, a.2)
  else r

/-- Method `bool WebUSBCDC::USBCallback_request()` (lines 100-230): returns the new state and
whether the request was handled. -/
def USBCallback_request (c : Consts) (e : Collaborators) (st : Device) : Device × Bool :=
  webusbFallback e (cdcClassBlock c (osDescriptorChain c (st, false)))

/-- Method `bool WebUSBCDC::USBCallback_setConfiguration(uint8_t configuration)`
(lines 235-252). The results of `addEndpoint` and `readStart` are discarded, as in the
source. -/
def USBCallback_setConfiguration (c : Consts) (e : Collaborators) (configuration : Nat)
    (st : Device) : Device × Bool :=
  if configuration ≠ DEFAULT_CONFIGURATION then
    (st, false)
  else
    let s1 := (e.call (Call.addEndpoint c.EPINT_IN c.MAX_PACKET_SIZE_EPINT) st).1
    let s2 := (e.call (Call.addEndpoint c.EPBULK_IN c.MAX_PACKET_SIZE_EPBULK) s1).1
    let s3 := (e.call (Call.addEndpoint c.EPBULK_OUT c.MAX_PACKET_SIZE_EPBULK) s2).1
    let s4 := (e.call (Call.addEndpoint (WEBUSB_ENDPOINT_IN c) c.MAX_PACKET_SIZE_EPBULK) s3).1
    let s5 := (e.call (Call.addEndpoint (WEBUSB_ENDPOINT_OUT c) c.MAX_PACKET_SIZE_EPBULK) s4).1
    let s6 := (e.call (Call.readStart c.EPBULK_OUT c.MAX_PACKET_SIZE_EPBULK) s5).1
    let s7 := (e.call (Call.readStart (WEBUSB_ENDPOINT_OUT c) c.MAX_PACKET_SIZE_EPBULK) s6).1
    (s7, true)

/-- Method `bool WebUSBCDC::write(uint8_t * buffer, uint32_t size, bool isCDC)`
(lines 254-259). -/
def write (c : Consts) (e : Collaborators) (buffer : List Nat) (size : Nat) (isCDC : Bool)
    (st : Device) : Device × Bool :=
  if isCDC && !st.cdc_connected then
    (st, false)
  else
    e.call (Call.write (if isCDC then CDC_ENDPOINT_IN c else WEBUSB_ENDPOINT_IN c)
      buffer size (MAX_CDC_REPORT_SIZE c)) st

/-- Method `bool WebUSBCDC::read(uint8_t * buffer, uint32_t * size, bool isCDC, bool blocking)`
(lines 261-273). The third component is what the receive stored in the caller's buffer
(empty when no receive was made). -/
def read (c : Consts) (e : Collaborators) (isCDC blocking : Bool) (st : Device) :
    Device × Bool × List Nat :=
  if isCDC && !st.cdc_connected then
    (st, false, [])
  else
    let ep := if isCDC then CDC_ENDPOINT_OUT c else WEBUSB_ENDPOINT_OUT c
    let k := if blocking then Call.readEP ep (MAX_CDC_REPORT_SIZE c)
             else Call.readEP_NB ep (MAX_CDC_REPORT_SIZE c)
    let data := e.received st.calls k
    let r := e.call k st
    if !r.2 then
      (r.1, false, data)
    else
      let a := e.call (Call.readStart ep (MAX_CDC_REPORT_SIZE c)) r.1
      if !a.2 then (a.1, false, data) else (a.1, true, data)

/-- Modelled from the spec: the engine step that ends the data phase of a host-to-device
control transfer (the engine is not under `src/`). The spec describes `notify` as the flag
requesting a completion callback; the callback is the virtual `USBCallback_requestCompleted`,
which `WebUSBCDC.h` (lines 23-46) does not declare, so the class contributes no code to this
step. `cdc_line_coding` is a `static` of `WebUSBCDC.cpp` that the file only initialises
(line 28) and hands out for reading (line 200), and `cdc_connected` is a private member
assigned only in the dispatcher, so the received bytes `buf` reach neither: the step only
marks the engine's own transfer as finished. -/
def dataPhaseCompleted (_buf : List Nat) (st : Device) : Device :=
  { st with transfer := { st.transfer with remaining := 0, notify := false } }

/-- Modelled from the spec: the engine step that starts the next control transfer (the engine
is not under `src/`): the new setup packet is stored and nothing is declared yet. The state
of the class is not touched. -/
def setupArrived (c : Consts) (s : SETUP_PACKET) (st : Device) : Device :=
  { st with transfer := resetTransfer c s }

/-! ## Concrete collaborators and packets used in evaluations -/

/-- Collaborators whose engine calls all succeed and whose vendor handler rejects. -/
def quietCollaborators : Collaborators where
  answer := fun _ _ => true
  received := fun _ _ => []
  webusbRequest := fun _ t => (t, false)

/-- Collaborators whose engine calls all fail and whose vendor handler rejects. -/
def failingCollaborators : Collaborators where
  answer := fun _ _ => false
  received := fun _ _ => []
  webusbRequest := fun _ t => (t, false)

/-- A host-to-device class request to interface 0 with the given request code, value and
data length. -/
def classRequest (c : Consts) (code wValue wLength : Nat) : SETUP_PACKET :=
  { bmRequestType := { dataTransferDirection := c.HOST_TO_DEVICE, Type_ := c.CLASS_TYPE,
                       Recipient := c.INTERFACE_RECIPIENT },
    bRequest := code, wValue := wValue, wIndex := 0, wLength := wLength }

/-- The setup packet of a vendor request to an interface carrying the vendor code, as a host
sends it to query the extended-properties descriptor. -/
def extendedPropertiesRequest (c : Consts) (wIndex : Nat) : SETUP_PACKET :=
  { bmRequestType := { dataTransferDirection := c.DEVICE_TO_HOST, Type_ := c.VENDOR_TYPE,
                       Recipient := c.INTERFACE_RECIPIENT },
    bRequest := c.WINUSB_VENDOR_CODE, wValue := 0, wIndex := wIndex, wLength := 0x8e }

/-- The setup packet of the standard request GET_DESCRIPTOR(STRING, index 0xEE) to the
device, as a host sends it to probe for Microsoft OS descriptors. -/
def msftStringRequest : SETUP_PACKET :=
  { bmRequestType := { dataTransferDirection := usbConsts.DEVICE_TO_HOST,
                       Type_ := usbConsts.STANDARD_TYPE,
                       Recipient := usbConsts.DEVICE_RECIPIENT },
    bRequest := usbConsts.GET_DESCRIPTOR, wValue := 0x03EE, wIndex := 0, wLength := 0x12 }

/-- The line-coding round trip on the dispatcher: SET_LINE_CODING is dispatched on `st`, its
data phase delivers `b` and completes, the next setup packet is GET_LINE_CODING and is
dispatched. Returns whether each request was handled and the bytes of the answer. -/
def lineCodingRoundTrip (c : Consts) (e : Collaborators) (b : List Nat) (st : Device) :
    Bool × Bool × Option (List Nat) :=
  let s1 := USBCallback_request c e
    (setupArrived c (classRequest c CDC_SET_LINE_CODING 0 7) st)
  let s2 := dataPhaseCompleted b s1.1
  let s3 := USBCallback_request c e
    (setupArrived c (classRequest c CDC_GET_LINE_CODING 0 7) s2)
  (s1.2, s3.2, response c s3.1)

/-! ## The table of own predicates and their effects -/

/-- The six own predicates of the dispatcher, in table order. -/
inductive Predicate where
  | msftString
  | compatibleId
  | extendedProperties
  | getLineCoding
  | setLineCoding
  | setControlLineState
  deriving DecidableEq, Repr

/-- When a setup packet matches a predicate of the table. -/
def Predicate.holds (c : Consts) : Predicate → SETUP_PACKET → Prop
  | Predicate.msftString, s => isMsftStringRequest c s
  | Predicate.compatibleId, s => isCompatibleIdRequest c s
  | Predicate.extendedProperties, s => isExtendedPropertiesRequest c s
  | Predicate.getLineCoding, s => isClassRequest c CDC_GET_LINE_CODING s
  | Predicate.setLineCoding, s => isClassRequest c CDC_SET_LINE_CODING s
  | Predicate.setControlLineState, s => isClassRequest c CDC_SET_CONTROL_LINE_STATE s

/-- Declaring a device-to-host answer of `n` bytes at `p`: the three assignments every
answering branch makes. -/
def declareAnswer (c : Consts) (p : Ptr) (n : Nat) (st : Device) : Device :=
  { st with transfer := { st.transfer with remaining := n, ptr := p,
                                           direction := c.DEVICE_TO_HOST } }

/-- The effect each predicate's branch has on the device, read off the branch bodies. -/
def Predicate.effect (c : Consts) : Predicate → Device → Device
  | Predicate.msftString, st => declareAnswer c Ptr.msftStringDescriptor 0x12 st
  | Predicate.compatibleId, st =>
      declareAnswer c Ptr.msftCompatibleIdDescriptor (msftCompatibleIdDescriptor c).length st
  | Predicate.extendedProperties, st =>
      declareAnswer c Ptr.msftExtendedPropertiesDescriptor
        (msftExtendedPropertiesDescriptor c).length st
  | Predicate.getLineCoding, st => declareAnswer c Ptr.cdc_line_coding 7 st
  | Predicate.setLineCoding, st =>
      { st with transfer := { st.transfer with remaining := 7, notify := true } }
  | Predicate.setControlLineState, st =>
      { st with cdc_connected := decide (st.transfer.setup.wValue % 2 = 1) }

/-- The three predicates that answer with an OS descriptor. -/
def Predicate.isOsDescriptor : Predicate → Bool
  | Predicate.msftString => true
  | Predicate.compatibleId => true
  | Predicate.extendedProperties => true
  | _ => false

/-! ## Reading descriptor tables -/

/-- Little-endian 16-bit field of a byte table at offset `off`. -/
def le16 (t : List Nat) (off : Nat) : Nat :=
  t.getD off 0 + 256 * t.getD (off + 1) 0

/-- Little-endian 32-bit field of a byte table at offset `off`. -/
def le32 (t : List Nat) (off : Nat) : Nat :=
  t.getD off 0 + 256 * t.getD (off + 1) 0 + 65536 * t.getD (off + 2) 0 +
    16777216 * t.getD (off + 3) 0

/-- The bytes of `t` from offset `off`, `n` of them. -/
def slice (t : List Nat) (off n : Nat) : List Nat :=
  (t.drop off).take n

/-- UTF-16LE encoding of an ASCII text: each character followed by a zero byte. -/
def utf16le (text : String) : List Nat :=
  text.toList.flatMap fun ch => [ch.toNat, 0]

/-- The endpoints registered by the `addEndpoint` calls of a call list, with their sizes. -/
def registered : List Call → List (Nat × Nat)
  | [] => []
  | Call.addEndpoint ep sz :: rest => (ep, sz) :: registered rest
  | _ :: rest => registered rest

/-- The endpoints armed by the `readStart` calls of a call list, with their sizes. -/
def armed : List Call → List (Nat × Nat)
  | [] => []
  | Call.readStart ep sz :: rest => (ep, sz) :: armed rest
  | _ :: rest => armed rest

/-! ## Descriptor macros and tables -/

/-- Macro `#define USB_VERSION_1_1 (0x0110)` -/
def USB_VERSION_1_1 : Nat := 0x0110

/-- Macro `#define IAD_DESCRIPTOR (0x0b)` -/
def IAD_DESCRIPTOR : Nat := 0x0b

/-- Macro `#define HEADER_FUNCTIONAL_DESCRIPTOR (0x00)` -/
def HEADER_FUNCTIONAL_DESCRIPTOR : Nat := 0x00

/-- Macro `#define CALL_MANAGEMENT_FUNCTIONAL_DESCRIPTOR (0x01)` -/
def CALL_MANAGEMENT_FUNCTIONAL_DESCRIPTOR : Nat := 0x01

/-- Macro `#define ACM_FUNCTIONAL_DESCRIPTOR (0x02)` -/
def ACM_FUNCTIONAL_DESCRIPTOR : Nat := 0x02

/-- Macro `#define UNION_FUNCTIONAL_DESCRIPTOR (0x06)` -/
def UNION_FUNCTIONAL_DESCRIPTOR : Nat := 0x06

/-- Macro `#define IAD_DESCRIPTOR_LENGTH (8)` -/
def IAD_DESCRIPTOR_LENGTH : Nat := 8

/-- Macro `#define HEADER_FUNCTIONAL_DESCRIPTOR_LENGTH (5)` -/
def HEADER_FUNCTIONAL_DESCRIPTOR_LENGTH : Nat := 5

/-- Macro `#define CALL_MANAGEMENT_FUNCTIONAL_DESCRIPTOR_LENGTH (5)` -/
def CALL_MANAGEMENT_FUNCTIONAL_DESCRIPTOR_LENGTH : Nat := 5

/-- Macro `#define ACM_FUNCTIONAL_DESCRIPTOR_LENGTH (4)` -/
def ACM_FUNCTIONAL_DESCRIPTOR_LENGTH : Nat := 4

/-- Macro `#define UNION_FUNCTIONAL_DESCRIPTOR_LENGTH (5)` -/
def UNION_FUNCTIONAL_DESCRIPTOR_LENGTH : Nat := 5

/-- Macro `#define IAD_INTERFACE_COUNT (2)` -/
def IAD_INTERFACE_COUNT : Nat := 2

/-- Macro `#define CS_INTERFACE (0x24)` -/
def CS_INTERFACE : Nat := 0x24

/-- Macro `#define CDC_CLASS (0x02)` -/
def CDC_CLASS : Nat := 0x02

/-- Macro `#define CDC_CLASS_DATA (0x0A)` -/
def CDC_CLASS_DATA : Nat := 0x0A

/-- Macro `#define CUSTOM_CLASS (0xFF)` -/
def CUSTOM_CLASS : Nat := 0xFF

/-- Macro `#define ACM_SUBCLASS (0x02)` -/
def ACM_SUBCLASS : Nat := 0x02

/-- Macro `#define CDC_INTERFACE_COUNT (2)` -/
def CDC_INTERFACE_COUNT : Nat := 2

/-- Macro `#define CDC_INT_ENDPOINT_COUNT (1)` -/
def CDC_INT_ENDPOINT_COUNT : Nat := 1

/-- Macro `#define CDC_DATA_ENDPOINT_COUNT (2)` -/
def CDC_DATA_ENDPOINT_COUNT : Nat := 2

/-- Macro `#define CDC_EPINT_INTERVAL (16)` -/
def CDC_EPINT_INTERVAL : Nat := 16

/-- Macro `#define WEBUSB_INTERFACE_COUNT (1)` -/
def WEBUSB_INTERFACE_COUNT : Nat := 1

/-- Macro `#define WEBUSB_ENDPOINT_COUNT (2)` -/
def WEBUSB_ENDPOINT_COUNT : Nat := 2

/-- Macro `#define NUM_ORIGINS 1` -/
def NUM_ORIGINS : Nat := 1

/-- Macros used by the descriptor tables of `WebUSBCDC.cpp` whose definitions live in
`USBDescriptor.h`, `USBEndpoints.h` and `WebUSB.h`, none of them under `src/`. They are
parameters of the tables; `C_POWER` and `PHY_TO_DESC` are function-like macros. -/
structure DescriptorConsts where
  CONFIGURATION_DESCRIPTOR_LENGTH : Nat
  CONFIGURATION_DESCRIPTOR : Nat
  INTERFACE_DESCRIPTOR_LENGTH : Nat
  INTERFACE_DESCRIPTOR : Nat
  ENDPOINT_DESCRIPTOR_LENGTH : Nat
  ENDPOINT_DESCRIPTOR : Nat
  C_RESERVED : Nat
  C_POWER : Nat → Nat
  PHY_TO_DESC : Nat → Nat
  E_INTERRUPT : Nat
  E_BULK : Nat
  WEBUSB_URL : Nat
  WEBUSB_URL_SCHEME_HTTP : Nat
  WEBUSB_URL_SCHEME_HTTPS : Nat
  WEBUSB_DESCRIPTOR_SET_LENGTH : Nat
  WEBUSB_DESCRIPTOR_SET_HEADER : Nat
  WEBUSB_CONFIGURATION_SUBSET_LENGTH : Nat
  WEBUSB_CONFIGURATION_SUBSET_HEADER : Nat
  WEBUSB_FUNCTION_SUBSET_LENGTH : Nat
  WEBUSB_FUNCTION_SUBSET_HEADER : Nat
  URL_OFFSET_ALLOWED_ORIGIN : Nat

/-- The descriptor lengths, descriptor type codes and endpoint transfer-type codes that USB
2.0 chapter 9 fixes, as a condition on the header macros. -/
structure DescriptorConsts.Standard (d : DescriptorConsts) : Prop where
  configuration_length : d.CONFIGURATION_DESCRIPTOR_LENGTH = 9
  configuration_code : d.CONFIGURATION_DESCRIPTOR = 2
  interface_length : d.INTERFACE_DESCRIPTOR_LENGTH = 9
  interface_code : d.INTERFACE_DESCRIPTOR = 4
  endpoint_length : d.ENDPOINT_DESCRIPTOR_LENGTH = 7
  endpoint_code : d.ENDPOINT_DESCRIPTOR = 5
  interrupt_code : d.E_INTERRUPT = 3
  bulk_code : d.E_BULK = 2

/-- The WebUSB header lengths 5 (descriptor set), 4 (configuration subset) and 3 (function
subset), as a condition on the header macros. -/
structure DescriptorConsts.WebUSBLengths (d : DescriptorConsts) : Prop where
  set_length : d.WEBUSB_DESCRIPTOR_SET_LENGTH = 5
  configuration_subset_length : d.WEBUSB_CONFIGURATION_SUBSET_LENGTH = 4
  function_subset_length : d.WEBUSB_FUNCTION_SUBSET_LENGTH = 3

/-- The values USB 2.0 chapter 9 and the WebUSB draft give to the descriptor macros, with the
mbed definitions of the two function-like macros; used for concrete evaluations. -/
def usbDescriptorConsts : DescriptorConsts where
  CONFIGURATION_DESCRIPTOR_LENGTH := 9
  CONFIGURATION_DESCRIPTOR := 2
  INTERFACE_DESCRIPTOR_LENGTH := 9
  INTERFACE_DESCRIPTOR := 4
  ENDPOINT_DESCRIPTOR_LENGTH := 7
  ENDPOINT_DESCRIPTOR := 5
  C_RESERVED := 0x80
  C_POWER := fun mA => mA / 2
  PHY_TO_DESC := fun endpoint => (endpoint / 2) + (if endpoint % 2 = 1 then 0x80 else 0)
  E_INTERRUPT := 0x03
  E_BULK := 0x02
  WEBUSB_URL := 3
  WEBUSB_URL_SCHEME_HTTP := 0
  WEBUSB_URL_SCHEME_HTTPS := 1
  WEBUSB_DESCRIPTOR_SET_LENGTH := 5
  WEBUSB_DESCRIPTOR_SET_HEADER := 0
  WEBUSB_CONFIGURATION_SUBSET_LENGTH := 4
  WEBUSB_CONFIGURATION_SUBSET_HEADER := 1
  WEBUSB_FUNCTION_SUBSET_LENGTH := 3
  WEBUSB_FUNCTION_SUBSET_HEADER := 2
  URL_OFFSET_ALLOWED_ORIGIN := 1

/-- Macro `FULL_CONFIGURATION_SIZE` (lines 275-278). -/
def FULL_CONFIGURATION_SIZE (d : DescriptorConsts) : Nat :=
  d.CONFIGURATION_DESCRIPTOR_LENGTH +
    (3 * d.INTERFACE_DESCRIPTOR_LENGTH) + (5 * d.ENDPOINT_DESCRIPTOR_LENGTH) +
    IAD_DESCRIPTOR_LENGTH + HEADER_FUNCTIONAL_DESCRIPTOR_LENGTH +
    CALL_MANAGEMENT_FUNCTIONAL_DESCRIPTOR_LENGTH +
    ACM_FUNCTIONAL_DESCRIPTOR_LENGTH + UNION_FUNCTIONAL_DESCRIPTOR_LENGTH

/-- Table `configDescriptor` returned by `WebUSBCDC::configurationDesc()` (lines 280-415). -/
def configurationDesc (c : Consts) (d : DescriptorConsts) : List Nat :=
  [ /- configuration descriptor -/
    d.CONFIGURATION_DESCRIPTOR_LENGTH,
    d.CONFIGURATION_DESCRIPTOR,
    LSB (FULL_CONFIGURATION_SIZE d),
    MSB (FULL_CONFIGURATION_SIZE d),
    CDC_INTERFACE_COUNT + WEBUSB_INTERFACE_COUNT,
    0x01,
    0x00,
    d.C_RESERVED,
    d.C_POWER 100,
    /- IAD to associate the two CDC interfaces -/
    IAD_DESCRIPTOR_LENGTH,
    IAD_DESCRIPTOR,
    CDC_INT_INTERFACE_NUMBER,
    IAD_INTERFACE_COUNT,
    CDC_CLASS,
    ACM_SUBCLASS,
    0,
    0,
    /- CDC INTERRUPT INTERFACE -/
    d.INTERFACE_DESCRIPTOR_LENGTH,
    d.INTERFACE_DESCRIPTOR,
    CDC_INT_INTERFACE_NUMBER,
    0x00,
    CDC_INT_ENDPOINT_COUNT,
    CDC_CLASS,
    ACM_SUBCLASS,
    0x01,
    0x00,
    /- CDC Header Functional Descriptor -/
    HEADER_FUNCTIONAL_DESCRIPTOR_LENGTH,
    CS_INTERFACE,
    HEADER_FUNCTIONAL_DESCRIPTOR,
    LSB USB_VERSION_1_1,
    MSB USB_VERSION_1_1,
    /- CDC Call Management Functional Descriptor -/
    CALL_MANAGEMENT_FUNCTIONAL_DESCRIPTOR_LENGTH,
    CS_INTERFACE,
    CALL_MANAGEMENT_FUNCTIONAL_DESCRIPTOR,
    0x03,
    CDC_INTERFACE_NUMBER,
    /- CDC Abstract Control Management Functional Descriptor -/
    ACM_FUNCTIONAL_DESCRIPTOR_LENGTH,
    CS_INTERFACE,
    ACM_FUNCTIONAL_DESCRIPTOR,
    0x02,
    /- CDC Union Functional Descriptor -/
    UNION_FUNCTIONAL_DESCRIPTOR_LENGTH,
    CS_INTERFACE,
    UNION_FUNCTIONAL_DESCRIPTOR,
    CDC_INT_INTERFACE_NUMBER,
    CDC_INTERFACE_NUMBER,
    /- CDC INT EP -/
    d.ENDPOINT_DESCRIPTOR_LENGTH,
    d.ENDPOINT_DESCRIPTOR,
    d.PHY_TO_DESC c.EPINT_IN,
    d.E_INTERRUPT,
    LSB c.MAX_PACKET_SIZE_EPINT,
    MSB c.MAX_PACKET_SIZE_EPINT,
    CDC_EPINT_INTERVAL,
    /- CDC DATA INTERFACE -/
    d.INTERFACE_DESCRIPTOR_LENGTH,
    d.INTERFACE_DESCRIPTOR,
    CDC_INTERFACE_NUMBER,
    0x00,
    CDC_DATA_ENDPOINT_COUNT,
    CDC_CLASS_DATA,
    0x00,
    0x00,
    0x00,
    /- CDC DATA ENDPOINT IN -/
    d.ENDPOINT_DESCRIPTOR_LENGTH,
    d.ENDPOINT_DESCRIPTOR,
    d.PHY_TO_DESC c.EPBULK_IN,
    d.E_BULK,
    LSB c.MAX_PACKET_SIZE_EPBULK,
    MSB c.MAX_PACKET_SIZE_EPBULK,
    0x00,
    /- CDC DATA ENDPOINT OUT -/
    d.ENDPOINT_DESCRIPTOR_LENGTH,
    d.ENDPOINT_DESCRIPTOR,
    d.PHY_TO_DESC c.EPBULK_OUT,
    d.E_BULK,
    LSB c.MAX_PACKET_SIZE_EPBULK,
    MSB c.MAX_PACKET_SIZE_EPBULK,
    0x00,
    /- WEBUSB INTERFACE -/
    d.INTERFACE_DESCRIPTOR_LENGTH,
    d.INTERFACE_DESCRIPTOR,
    WEBUSB_INTERFACE_NUMBER,
    0x00,
    WEBUSB_ENDPOINT_COUNT,
    CUSTOM_CLASS,
    0x00,
    0x00,
    0x00,
    /- WEBUSB ENDPOINT IN -/
    d.ENDPOINT_DESCRIPTOR_LENGTH,
    d.ENDPOINT_DESCRIPTOR,
    d.PHY_TO_DESC (WEBUSB_ENDPOINT_IN c),
    d.E_BULK,
    LSB c.MAX_PACKET_SIZE_EPBULK,
    MSB c.MAX_PACKET_SIZE_EPBULK,
    0x00,
    /- WEBUSB ENDPOINT OUT -/
    d.ENDPOINT_DESCRIPTOR_LENGTH,
    d.ENDPOINT_DESCRIPTOR,
    d.PHY_TO_DESC (WEBUSB_ENDPOINT_OUT c),
    d.E_BULK,
    LSB c.MAX_PACKET_SIZE_EPBULK,
    MSB c.MAX_PACKET_SIZE_EPBULK,
    0x00 ]

/-- Table `stringIinterfaceDescriptor` returned by `stringIinterfaceDesc()` (lines 419-426). -/
def stringIinterfaceDesc (c : Consts) : List Nat :=
  [ 0x08,
    c.STRING_DESCRIPTOR,
    'C'.toNat, 0, 'D'.toNat, 0, 'C'.toNat, 0 ]

/-- Table `stringIproductDescriptor` returned by `stringIproductDesc()` (lines 428-435). -/
def stringIproductDesc (c : Consts) : List Nat :=
  [ 0x22,
    c.STRING_DESCRIPTOR,
    'e'.toNat, 0, 'm'.toNat, 0, 'p'.toNat, 0, 'i'.toNat, 0, 'r'.toNat, 0, 'i'.toNat, 0,
    'K'.toNat, 0, 'i'.toNat, 0, 't'.toNat, 0, '|'.toNat, 0, 'M'.toNat, 0, 'O'.toNat, 0,
    'T'.toNat, 0, 'I'.toNat, 0, 'O'.toNat, 0, 'N'.toNat, 0 ]

/-- Table `stringImanufacturerDescriptor` returned by `stringImanufacturerDesc()`
(lines 437-444). -/
def stringImanufacturerDesc (c : Consts) : List Nat :=
  [ 0x14,                                      /- bLength -/
    c.STRING_DESCRIPTOR,                       /- bDescriptorType 0x03 -/
    'e'.toNat, 0, 'm'.toNat, 0, 'p'.toNat, 0, 'i'.toNat, 0, 'r'.toNat, 0, 'i'.toNat, 0,
    'K'.toNat, 0, 'i'.toNat, 0, 't'.toNat, 0 ]

/-- Table `stringIserialDescriptor` returned by `stringIserialDesc()` (lines 446-453). -/
def stringIserialDesc (c : Consts) : List Nat :=
  [ 0x0C,                                      /- bLength -/
    c.STRING_DESCRIPTOR,                       /- bDescriptorType 0x03 -/
    '0'.toNat, 0, '0'.toNat, 0, '0'.toNat, 0, '0'.toNat, 0, '1'.toNat, 0 ]

/-- Table `urlIlandingPageDescriptor` returned by `urlIlandingPage()`: the variant that is
compiled, lines 466-474 (the `#if 0` variant above it is not). -/
def urlIlandingPage (d : DescriptorConsts) : List Nat :=
  [ 0x16,                                      /- bLength -/
    d.WEBUSB_URL,                              /- bDescriptorType -/
    d.WEBUSB_URL_SCHEME_HTTPS,                 /- bScheme -/
    'e'.toNat, 'm'.toNat, 'p'.toNat, 'i'.toNat, 'r'.toNat, 'i'.toNat, 'k'.toNat, 'i'.toNat,
    't'.toNat, '.'.toNat, 'g'.toNat, 'i'.toNat, 't'.toNat, 'h'.toNat, 'u'.toNat, 'b'.toNat,
    '.'.toNat, 'i'.toNat, 'o'.toNat ]

/-- Macro `TOTAL_ORIGINS_LENGTH` (lines 479-482). -/
def TOTAL_ORIGINS_LENGTH (d : DescriptorConsts) : Nat :=
  d.WEBUSB_DESCRIPTOR_SET_LENGTH +
    d.WEBUSB_CONFIGURATION_SUBSET_LENGTH +
    d.WEBUSB_FUNCTION_SUBSET_LENGTH +
    NUM_ORIGINS

/-- Table `allowedOriginsDescriptor` returned by `allowedOriginsDesc()` (lines 484-504). -/
def allowedOriginsDesc (d : DescriptorConsts) : List Nat :=
  [ d.WEBUSB_DESCRIPTOR_SET_LENGTH,            /- bLength -/
    d.WEBUSB_DESCRIPTOR_SET_HEADER,            /- bDescriptorType -/
    LSB (TOTAL_ORIGINS_LENGTH d),              /- wTotalLength (LSB) -/
    MSB (TOTAL_ORIGINS_LENGTH d),              /- wTotalLength (MSB) -/
    0x01,                                      /- bNumConfigurations -/
    d.WEBUSB_CONFIGURATION_SUBSET_LENGTH,      /- bLength -/
    d.WEBUSB_CONFIGURATION_SUBSET_HEADER,      /- bDescriptorType -/
    DEFAULT_CONFIGURATION,                     /- bConfigurationValue -/
    0x01,                                      /- bNumFunctions -/
    (d.WEBUSB_FUNCTION_SUBSET_LENGTH + NUM_ORIGINS), /- bLength -/
    d.WEBUSB_FUNCTION_SUBSET_HEADER,           /- bDescriptorType -/
    WEBUSB_INTERFACE_NUMBER,                   /- bFirstInterfaceNumber -/
    d.URL_OFFSET_ALLOWED_ORIGIN ]              /- iOrigin[] -/

/-- Table `urlIallowedOriginDescriptor` returned by `urlIallowedOrigin()` (lines 506-514). -/
def urlIallowedOrigin (d : DescriptorConsts) : List Nat :=
  [ 0x11,                                      /- bLength -/
    d.WEBUSB_URL,                              /- bDescriptorType -/
    d.WEBUSB_URL_SCHEME_HTTP,                  /- bScheme -/
    'l'.toNat, 'o'.toNat, 'c'.toNat, 'a'.toNat, 'l'.toNat, 'h'.toNat, 'o'.toNat, 's'.toNat,
    't'.toNat, ':'.toNat, '8'.toNat, '0'.toNat, '0'.toNat, '0'.toNat ]

/-! ## Walking a table by the bLength bytes -/

/-- Cut a byte table into sub-descriptors: each starts with its own bLength byte, which says
how many bytes it has. The walk fails on a zero bLength or on one that runs past the end of
the table, and succeeds only when it lands exactly on the end. `fuel` bounds the number of
sub-descriptors. -/
def splitFrom : Nat → List Nat → Option (List (List Nat))
  | 0, _ => none
  | _ + 1, [] => some []
  | fuel + 1, len :: rest =>
    if len = 0 ∨ (len :: rest).length < len then
      none
    else
      (splitFrom fuel (rest.drop (len - 1))).map fun tail =>
        (len :: rest.take (len - 1)) :: tail

/-- The sub-descriptors of a table; every sub-descriptor has at least one byte, so a fuel of
one more than the byte count never runs out. -/
def splitDescriptors (t : List Nat) : Option (List (List Nat)) :=
  splitFrom (t.length + 1) t

/-- The bDescriptorType byte of a sub-descriptor. -/
def descriptorType (sub : List Nat) : Nat := sub.getD 1 0

/-- The sub-descriptors of a given bDescriptorType, in table order. -/
def ofType (ty : Nat) (subs : List (List Nat)) : List (List Nat) :=
  subs.filter fun sub => descriptorType sub == ty

/-- For each sub-descriptor of type `ifaceTy`: its byte 4 (bNumEndpoints of an interface
descriptor) and the number of sub-descriptors of type `epTy` between it and the next
sub-descriptor of type `ifaceTy`. -/
def interfaceEndpointCounts (ifaceTy epTy : Nat) : List (List Nat) → List (Nat × Nat)
  | [] => []
  | sub :: rest =>
    if descriptorType sub = ifaceTy then
      (sub.getD 4 0,
        (ofType epTy (rest.takeWhile fun x => descriptorType x != ifaceTy)).length) ::
        interfaceEndpointCounts ifaceTy epTy rest
    else
      interfaceEndpointCounts ifaceTy epTy rest

/-! ## Packets and calls used to state the contracts of the later sections -/

/-- The setup packet of a vendor request to the device carrying the vendor code and the
compatible-ID feature index, as a host sends it to query the compatible-ID descriptor. -/
def compatibleIdRequest (c : Consts) : SETUP_PACKET :=
  { bmRequestType := { dataTransferDirection := c.DEVICE_TO_HOST, Type_ := c.VENDOR_TYPE,
                       Recipient := c.DEVICE_RECIPIENT },
    bRequest := c.WINUSB_VENDOR_CODE, wValue := 0,
    wIndex := c.WINUSB_GET_COMPATIBLE_ID_FEATURE_DESCRIPTOR, wLength := 0x28 }

/-- The bytes of an ASCII text, one per character. -/
def ascii (text : String) : List Nat :=
  text.toList.map Char.toNat

/-- The transmit call the write contract names: on the CDC bulk-IN endpoint when `isCDC`, on
the WebUSB bulk-IN endpoint otherwise, with the caller's buffer and size and the bulk packet
size. -/
def transmitCall (c : Consts) (buffer : List Nat) (size : Nat) (isCDC : Bool) : Call :=
  Call.write (if isCDC then c.EPBULK_IN else c.EP5IN) buffer size c.MAX_PACKET_SIZE_EPBULK

/-- The receive call the read contract names: on the CDC bulk-OUT endpoint when `isCDC`, on
the WebUSB bulk-OUT endpoint otherwise; the blocking receive when `blocking`, the
non-blocking one otherwise. -/
def receiveCall (c : Consts) (isCDC blocking : Bool) : Call :=
  if blocking then
    Call.readEP (if isCDC then c.EPBULK_OUT else c.EP5OUT) c.MAX_PACKET_SIZE_EPBULK
  else
    Call.readEP_NB (if isCDC then c.EPBULK_OUT else c.EP5OUT) c.MAX_PACKET_SIZE_EPBULK

/-- The re-arm call the read contract names: `readStart` on the endpoint the receive used. -/
def rearmCall (c : Consts) (isCDC : Bool) : Call :=
  Call.readStart (if isCDC then c.EPBULK_OUT else c.EP5OUT) c.MAX_PACKET_SIZE_EPBULK

/-- What the spec asks of a string descriptor table for an ASCII text: byte 0 (bLength) is
2 + 2 * (number of characters) and is the table's byte count, byte 1 is the STRING descriptor
type, and the rest is the text in UTF-16LE with nothing after it. -/
def IsStringDescriptor (c : Consts) (text : String) (t : List Nat) : Prop :=
  t.getD 0 0 = 2 + 2 * text.length ∧
  t.getD 0 0 = t.length ∧
  t.getD 1 0 = c.STRING_DESCRIPTOR ∧
  t.drop 2 = utf16le text

/-- What the spec asks of a WebUSB URL descriptor table: byte 0 (bLength) is 3 + (number of
URL bytes) and is the table's byte count, byte 1 is the URL descriptor type, byte 2 the
scheme, and the rest is the raw ASCII URL with nothing after it. -/
def IsUrlDescriptor (d : DescriptorConsts) (scheme : Nat) (url : String) (t : List Nat) :
    Prop :=
  t.getD 0 0 = 3 + url.length ∧
  t.getD 0 0 = t.length ∧
  t.getD 1 0 = d.WEBUSB_URL ∧
  t.getD 2 0 = scheme ∧
  t.drop 3 = ascii url

/-! ## Sequences of operations -/

/-- One operation of the class, as the engine or the application invokes it:
* `request t`: the engine has control transfer `t` in flight (any setup packet, any values
  of the other fields) and calls `USBCallback_request`;
* `dataPhase buf`: the data phase of the transfer in flight delivers `buf` and completes;
* `setConfiguration v`: the engine calls `USBCallback_setConfiguration(v)`;
* `read`, `write`: the application calls the data-path methods. -/
inductive Operation where
  | request (t : CONTROL_TRANSFER)
  | dataPhase (buf : List Nat)
  | setConfiguration (configuration : Nat)
  | read (isCDC blocking : Bool)
  | write (buffer : List Nat) (size : Nat) (isCDC : Bool)
  deriving DecidableEq, Repr

/-- The device after one operation. -/
def applyOperation (c : Consts) (e : Collaborators) (op : Operation) (st : Device) : Device :=
  match op with
  | Operation.request t => (USBCallback_request c e { st with transfer := t }).1
  | Operation.dataPhase buf => dataPhaseCompleted buf st
  | Operation.setConfiguration v => (USBCallback_setConfiguration c e v st).1
  | Operation.read isCDC blocking => (read c e isCDC blocking st).1
  | Operation.write buffer size isCDC => (write c e buffer size isCDC st).1

/-- The device after a finite sequence of operations, first operation first. -/
def runOperations (c : Consts) (e : Collaborators) : List Operation → Device → Device
  | [], st => st
  | op :: rest, st => runOperations c e rest (applyOperation c e op st)

/-- A session that tries to change the line coding and then uses every other operation:
SET_LINE_CODING, its data phase with 115200 baud 8N1, configuration 1, DTR raised, a CDC
write, a CDC read and a WebUSB read. -/
def sampleSession : List Operation :=
  [ Operation.request (resetTransfer usbConsts (classRequest usbConsts CDC_SET_LINE_CODING 0 7)),
    Operation.dataPhase [0x00, 0xC2, 0x01, 0x00, 0x00, 0x00, 0x08],
    Operation.setConfiguration 1,
    Operation.request
      (resetTransfer usbConsts (classRequest usbConsts CDC_SET_CONTROL_LINE_STATE 1 0)),
    Operation.write [0x41] 1 true,
    Operation.read true true,
    Operation.read false false ]

/-! ## Line coding -/

/-- C1 (code defect): on a freshly constructed device a SET_LINE_CODING whose data phase
delivers 00 C2 01 00 00 00 08 (115200 baud, 8N1) is handled, and the GET_LINE_CODING that
follows is handled and answers with 7 bytes, but these are the initial bytes
80 25 00 00 00 00 08 and not the bytes that were sent. -/
theorem lineCodingRoundTrip_answers_initial_bytes :
    lineCodingRoundTrip usbConsts quietCollaborators [0x00, 0xC2, 0x01, 0x00, 0x00, 0x00, 0x08]
        (freshDevice usbConsts (classRequest usbConsts CDC_SET_LINE_CODING 0 7))
      = (true, true, some [0x80, 0x25, 0x00, 0x00, 0x00, 0x00, 0x08]) ∧
    [0x80, 0x25, 0x00, 0x00, 0x00, 0x00, 0x08] ≠
      ([0x00, 0xC2, 0x01, 0x00, 0x00, 0x00, 0x08] : List Nat) := by
  constructor
  · rfl
  · decide

/-! ## Endpoint configuration -/

/-- C2: for every configuration value other than 1, `USBCallback_setConfiguration` returns
false and leaves the whole state, the list of collaborator calls included, as it was: no
`addEndpoint` and no `readStart` is issued. -/
theorem setConfiguration_other_value_fails (c : Consts) (e : Collaborators) (v : Nat)
    (st : Device) (hv : v ≠ 1) :
    USBCallback_setConfiguration c e v st = (st, false) := by
  unfold USBCallback_setConfiguration DEFAULT_CONFIGURATION
  rw [if_pos hv]

/-- Instance of C2 at configuration value 0 on a fresh device. -/
theorem setConfiguration_other_value_fails_witness :
    (0 : Nat) ≠ 1 ∧
    USBCallback_setConfiguration usbConsts quietCollaborators 0
        (freshDevice usbConsts (classRequest usbConsts 0 0 0))
      = (freshDevice usbConsts (classRequest usbConsts 0 0 0), false) :=
  ⟨by decide, setConfiguration_other_value_fails usbConsts quietCollaborators 0
    (freshDevice usbConsts (classRequest usbConsts 0 0 0)) (by decide)⟩

/-- C3: `USBCallback_setConfiguration(1)` returns true whatever the collaborators answer, and
the calls it adds to the history are exactly, in this order: `addEndpoint` for EPINT_IN with
MAX_PACKET_SIZE_EPINT, then for EPBULK_IN, EPBULK_OUT, EP5IN and EP5OUT with
MAX_PACKET_SIZE_EPBULK, then `readStart` for EPBULK_OUT and for EP5OUT with
MAX_PACKET_SIZE_EPBULK. Nothing else of the state changes, and as the five endpoint constants
are distinct no endpoint is registered twice. -/
theorem setConfiguration_default_registers_then_arms (c : Consts) (e : Collaborators)
    (st : Device)
    (hdistinct : [c.EPINT_IN, c.EPBULK_IN, c.EPBULK_OUT, c.EP5IN, c.EP5OUT].Nodup) :
    USBCallback_setConfiguration c e 1 st =
      ({ st with calls := st.calls ++
          [ Call.addEndpoint c.EPINT_IN c.MAX_PACKET_SIZE_EPINT,
            Call.addEndpoint c.EPBULK_IN c.MAX_PACKET_SIZE_EPBULK,
            Call.addEndpoint c.EPBULK_OUT c.MAX_PACKET_SIZE_EPBULK,
            Call.addEndpoint c.EP5IN c.MAX_PACKET_SIZE_EPBULK,
            Call.addEndpoint c.EP5OUT c.MAX_PACKET_SIZE_EPBULK,
            Call.readStart c.EPBULK_OUT c.MAX_PACKET_SIZE_EPBULK,
            Call.readStart c.EP5OUT c.MAX_PACKET_SIZE_EPBULK ] }, true) ∧
    registered ((USBCallback_setConfiguration c e 1 st).1.calls.drop st.calls.length) =
      [ (c.EPINT_IN, c.MAX_PACKET_SIZE_EPINT), (c.EPBULK_IN, c.MAX_PACKET_SIZE_EPBULK),
        (c.EPBULK_OUT, c.MAX_PACKET_SIZE_EPBULK), (c.EP5IN, c.MAX_PACKET_SIZE_EPBULK),
        (c.EP5OUT, c.MAX_PACKET_SIZE_EPBULK) ] ∧
    ((registered ((USBCallback_setConfiguration c e 1 st).1.calls.drop st.calls.length)).map
      Prod.fst).Nodup ∧
    armed ((USBCallback_setConfiguration c e 1 st).1.calls.drop st.calls.length) =
      [ (c.EPBULK_OUT, c.MAX_PACKET_SIZE_EPBULK), (c.EP5OUT, c.MAX_PACKET_SIZE_EPBULK) ] := by
  have hrun : USBCallback_setConfiguration c e 1 st =
      ({ st with calls := st.calls ++
          [ Call.addEndpoint c.EPINT_IN c.MAX_PACKET_SIZE_EPINT,
            Call.addEndpoint c.EPBULK_IN c.MAX_PACKET_SIZE_EPBULK,
            Call.addEndpoint c.EPBULK_OUT c.MAX_PACKET_SIZE_EPBULK,
            Call.addEndpoint c.EP5IN c.MAX_PACKET_SIZE_EPBULK,
            Call.addEndpoint c.EP5OUT c.MAX_PACKET_SIZE_EPBULK,
            Call.readStart c.EPBULK_OUT c.MAX_PACKET_SIZE_EPBULK,
            Call.readStart c.EP5OUT c.MAX_PACKET_SIZE_EPBULK ] }, true) := by
    simp [USBCallback_setConfiguration, DEFAULT_CONFIGURATION, Collaborators.call,
      WEBUSB_ENDPOINT_IN, WEBUSB_ENDPOINT_OUT, List.append_assoc]
  refine ⟨hrun, ?_, ?_, ?_⟩
  · rw [hrun]; simp [registered]
  · rw [hrun]; simpa [registered] using hdistinct
  · rw [hrun]; simp [armed]

/-- Instance of C3 on a fresh device whose engine calls all report failure. -/
theorem setConfiguration_default_registers_then_arms_witness :
    [usbConsts.EPINT_IN, usbConsts.EPBULK_IN, usbConsts.EPBULK_OUT, usbConsts.EP5IN,
      usbConsts.EP5OUT].Nodup ∧
    (USBCallback_setConfiguration usbConsts failingCollaborators 1
        (freshDevice usbConsts (classRequest usbConsts 0 0 0))).2 = true ∧
    (USBCallback_setConfiguration usbConsts failingCollaborators 1
        (freshDevice usbConsts (classRequest usbConsts 0 0 0))).1.calls =
      [ Call.addEndpoint 3 64, Call.addEndpoint 5 64, Call.addEndpoint 4 64,
        Call.addEndpoint 11 64, Call.addEndpoint 10 64,
        Call.readStart 4 64, Call.readStart 10 64 ] := by
  have h := setConfiguration_default_registers_then_arms usbConsts failingCollaborators
    (freshDevice usbConsts (classRequest usbConsts 0 0 0)) (by decide)
  refine ⟨by decide, ?_, ?_⟩
  · rw [h.1]
  · rw [h.1]; rfl

/-! ## The dispatcher -/

/-- Bit 0 of a value, as the source tests it with `wValue & CLS_DTR`. -/
theorem land_CLS_DTR (w : Nat) : w &&& CLS_DTR = w % 2 := by
  simp [CLS_DTR, Nat.and_one_is_mod]

/-- The chain leaves a packet alone when none of its three conditions holds. -/
theorem osDescriptorChain_miss (c : Consts) (r : Device × Bool)
    (h1 : ¬ isMsftStringRequest c r.1.transfer.setup)
    (h2 : ¬ isCompatibleIdRequest c r.1.transfer.setup)
    (h3 : ¬ isExtendedPropertiesRequest c r.1.transfer.setup) :
    osDescriptorChain c r = r := by
  unfold osDescriptorChain
  simp only [if_neg h1, if_neg h2, if_neg h3]

/-- The class block leaves a packet alone when its type is not CLASS. -/
theorem cdcClassBlock_other_type (c : Consts) (r : Device × Bool)
    (h : r.1.transfer.setup.bmRequestType.Type_ ≠ c.CLASS_TYPE) :
    cdcClassBlock c r = r := by
  unfold cdcClassBlock
  simp only [if_neg h]

/-- The fallback does nothing once `success` is true. -/
theorem webusbFallback_handled (e : Collaborators) (st : Device) :
    webusbFallback e (st, true) = (st, true) := by
  simp [webusbFallback]

/-- The dispatcher on an MSFT100 string request, when STANDARD and CLASS differ. -/
theorem USBCallback_request_msftString (c : Consts) (e : Collaborators) (st : Device)
    (hSC : c.STANDARD_TYPE ≠ c.CLASS_TYPE)
    (h : isMsftStringRequest c st.transfer.setup) :
    USBCallback_request c e st = (declareAnswer c Ptr.msftStringDescriptor 0x12 st, true) := by
  have hT : st.transfer.setup.bmRequestType.Type_ ≠ c.CLASS_TYPE := by
    rw [h.1]; exact hSC
  have hc : osDescriptorChain c (st, false) =
      (declareAnswer c Ptr.msftStringDescriptor 0x12 st, true) := by
    unfold osDescriptorChain
    simp only [if_pos h]
    rfl
  unfold USBCallback_request
  rw [hc, cdcClassBlock_other_type c _ (by simpa [declareAnswer] using hT),
    webusbFallback_handled]

/-- The dispatcher on a compatible-ID request, when VENDOR differs from STANDARD and from
CLASS. -/
theorem USBCallback_request_compatibleId (c : Consts) (e : Collaborators) (st : Device)
    (hVC : c.VENDOR_TYPE ≠ c.CLASS_TYPE) (hSV : c.STANDARD_TYPE ≠ c.VENDOR_TYPE)
    (h : isCompatibleIdRequest c st.transfer.setup) :
    USBCallback_request c e st =
      (declareAnswer c Ptr.msftCompatibleIdDescriptor
        (msftCompatibleIdDescriptor c).length st, true) := by
  have hT : st.transfer.setup.bmRequestType.Type_ ≠ c.CLASS_TYPE := by
    rw [h.1]; exact hVC
  have h1 : ¬ isMsftStringRequest c st.transfer.setup := by
    intro h1
    exact hSV (h1.1.symm.trans h.1)
  have hc : osDescriptorChain c (st, false) =
      (declareAnswer c Ptr.msftCompatibleIdDescriptor
        (msftCompatibleIdDescriptor c).length st, true) := by
    unfold osDescriptorChain
    simp only [if_neg h1, if_pos h]
    rfl
  unfold USBCallback_request
  rw [hc, cdcClassBlock_other_type c _ (by simpa [declareAnswer] using hT),
    webusbFallback_handled]

/-- The dispatcher on an extended-properties request, when VENDOR differs from STANDARD and
from CLASS and DEVICE differs from INTERFACE. -/
theorem USBCallback_request_extendedProperties (c : Consts) (e : Collaborators)
    (st : Device)
    (hVC : c.VENDOR_TYPE ≠ c.CLASS_TYPE) (hSV : c.STANDARD_TYPE ≠ c.VENDOR_TYPE)
    (hR : c.DEVICE_RECIPIENT ≠ c.INTERFACE_RECIPIENT)
    (h : isExtendedPropertiesRequest c st.transfer.setup) :
    USBCallback_request c e st =
      (declareAnswer c Ptr.msftExtendedPropertiesDescriptor
        (msftExtendedPropertiesDescriptor c).length st, true) := by
  have hT : st.transfer.setup.bmRequestType.Type_ ≠ c.CLASS_TYPE := by
    rw [h.1]; exact hVC
  have h1 : ¬ isMsftStringRequest c st.transfer.setup := by
    intro h1
    exact hSV (h1.1.symm.trans h.1)
  have h2 : ¬ isCompatibleIdRequest c st.transfer.setup := by
    intro h2
    exact hR (h2.2.1.symm.trans h.2.1)
  have hc : osDescriptorChain c (st, false) =
      (declareAnswer c Ptr.msftExtendedPropertiesDescriptor
        (msftExtendedPropertiesDescriptor c).length st, true) := by
    unfold osDescriptorChain
    simp only [if_neg h1, if_neg h2, if_pos h]
    rfl
  unfold USBCallback_request
  rw [hc, cdcClassBlock_other_type c _ (by simpa [declareAnswer] using hT),
    webusbFallback_handled]

/-- On a class request the dispatcher is its class block alone, when CLASS differs from
STANDARD and from VENDOR. -/
theorem USBCallback_request_class (c : Consts) (e : Collaborators) (st : Device)
    (hSC : c.STANDARD_TYPE ≠ c.CLASS_TYPE) (hVC : c.VENDOR_TYPE ≠ c.CLASS_TYPE)
    (h : st.transfer.setup.bmRequestType.Type_ = c.CLASS_TYPE) :
    USBCallback_request c e st = webusbFallback e (cdcClassBlock c (st, false)) := by
  have h1 : ¬ isMsftStringRequest c st.transfer.setup := by
    intro h1
    exact hSC (h1.1.symm.trans h)
  have h2 : ¬ isCompatibleIdRequest c st.transfer.setup := by
    intro h2
    exact hVC (h2.1.symm.trans h)
  have h3 : ¬ isExtendedPropertiesRequest c st.transfer.setup := by
    intro h3
    exact hVC (h3.1.symm.trans h)
  unfold USBCallback_request
  rw [osDescriptorChain_miss c (st, false) h1 h2 h3]

/-- The dispatcher on GET_LINE_CODING. -/
theorem USBCallback_request_getLineCoding (c : Consts) (e : Collaborators) (st : Device)
    (hSC : c.STANDARD_TYPE ≠ c.CLASS_TYPE) (hVC : c.VENDOR_TYPE ≠ c.CLASS_TYPE)
    (h : isClassRequest c CDC_GET_LINE_CODING st.transfer.setup) :
    USBCallback_request c e st = (declareAnswer c Ptr.cdc_line_coding 7 st, true) := by
  rw [USBCallback_request_class c e st hSC hVC h.1]
  unfold cdcClassBlock
  simp only [if_pos h.1, h.2]
  simp [webusbFallback, declareAnswer]

/-- The dispatcher on SET_LINE_CODING. -/
theorem USBCallback_request_setLineCoding (c : Consts) (e : Collaborators) (st : Device)
    (hSC : c.STANDARD_TYPE ≠ c.CLASS_TYPE) (hVC : c.VENDOR_TYPE ≠ c.CLASS_TYPE)
    (h : isClassRequest c CDC_SET_LINE_CODING st.transfer.setup) :
    USBCallback_request c e st =
      ({ st with transfer := { st.transfer with remaining := 7, notify := true } }, true) := by
  rw [USBCallback_request_class c e st hSC hVC h.1]
  unfold cdcClassBlock
  simp only [if_pos h.1, h.2]
  simp [CDC_GET_LINE_CODING, CDC_SET_LINE_CODING, webusbFallback]

/-- The dispatcher on SET_CONTROL_LINE_STATE. -/
theorem USBCallback_request_setControlLineState (c : Consts) (e : Collaborators)
    (st : Device)
    (hSC : c.STANDARD_TYPE ≠ c.CLASS_TYPE) (hVC : c.VENDOR_TYPE ≠ c.CLASS_TYPE)
    (h : isClassRequest c CDC_SET_CONTROL_LINE_STATE st.transfer.setup) :
    USBCallback_request c e st =
      ({ st with cdc_connected := decide (st.transfer.setup.wValue % 2 = 1) }, true) := by
  rw [USBCallback_request_class c e st hSC hVC h.1]
  unfold cdcClassBlock
  simp only [if_pos h.1, h.2]
  by_cases hb : st.transfer.setup.wValue % 2 = 1 <;>
    simp [CDC_GET_LINE_CODING, CDC_SET_LINE_CODING, CDC_SET_CONTROL_LINE_STATE,
      webusbFallback, land_CLS_DTR, hb]

/-- What the dispatcher does for each predicate, provided STANDARD, CLASS and VENDOR are
three different request types and DEVICE and INTERFACE two different recipients. -/
theorem USBCallback_request_of_holds (c : Consts) (e : Collaborators) (st : Device)
    (hSC : c.STANDARD_TYPE ≠ c.CLASS_TYPE) (hVC : c.VENDOR_TYPE ≠ c.CLASS_TYPE)
    (hSV : c.STANDARD_TYPE ≠ c.VENDOR_TYPE)
    (hR : c.DEVICE_RECIPIENT ≠ c.INTERFACE_RECIPIENT)
    (p : Predicate) (hp : p.holds c st.transfer.setup) :
    USBCallback_request c e st = (p.effect c st, true) := by
  cases p
  · exact USBCallback_request_msftString c e st hSC hp
  · exact USBCallback_request_compatibleId c e st hVC hSV hp
  · exact USBCallback_request_extendedProperties c e st hVC hSV hR hp
  · exact USBCallback_request_getLineCoding c e st hSC hVC hp
  · exact USBCallback_request_setLineCoding c e st hSC hVC hp
  · exact USBCallback_request_setControlLineState c e st hSC hVC hp

/-- Two predicates of the table never hold for the same packet, under the same provisos. -/
theorem Predicate.holds_unique (c : Consts) (s : SETUP_PACKET)
    (hSC : c.STANDARD_TYPE ≠ c.CLASS_TYPE) (hVC : c.VENDOR_TYPE ≠ c.CLASS_TYPE)
    (hSV : c.STANDARD_TYPE ≠ c.VENDOR_TYPE)
    (hR : c.DEVICE_RECIPIENT ≠ c.INTERFACE_RECIPIENT)
    (p q : Predicate) (hp : p.holds c s) (hq : q.holds c s) : p = q := by
  cases p <;> cases q <;> first
    | rfl
    | (exfalso
       simp only [Predicate.holds] at hp hq
       first
         | exact hSC (hp.1.symm.trans hq.1)
         | exact hSC (hq.1.symm.trans hp.1)
         | exact hVC (hp.1.symm.trans hq.1)
         | exact hVC (hq.1.symm.trans hp.1)
         | exact hSV (hp.1.symm.trans hq.1)
         | exact hSV (hq.1.symm.trans hp.1)
         | exact hR (hp.2.1.symm.trans hq.2.1)
         | exact hR (hq.2.1.symm.trans hp.2.1)
         | exact absurd (hp.2.symm.trans hq.2) (by decide))

/-- The chain never issues a collaborator call. -/
theorem osDescriptorChain_calls (c : Consts) (r : Device × Bool) :
    (osDescriptorChain c r).1.calls = r.1.calls := by
  unfold osDescriptorChain
  dsimp only
  split_ifs <;> rfl

/-- The chain never rewrites the setup packet. -/
theorem osDescriptorChain_setup (c : Consts) (r : Device × Bool) :
    (osDescriptorChain c r).1.transfer.setup = r.1.transfer.setup := by
  unfold osDescriptorChain
  dsimp only
  split_ifs <;> rfl

/-- The chain sets `success` when one of its conditions holds. -/
theorem osDescriptorChain_hit (c : Consts) (r : Device × Bool)
    (h : isMsftStringRequest c r.1.transfer.setup ∨ isCompatibleIdRequest c r.1.transfer.setup ∨
      isExtendedPropertiesRequest c r.1.transfer.setup) :
    (osDescriptorChain c r).2 = true := by
  unfold osDescriptorChain
  dsimp only
  split_ifs with h1 h2 h3
  · rfl
  · rfl
  · rfl
  · rcases h with h | h | h
    · exact absurd h h1
    · exact absurd h h2
    · exact absurd h h3

/-- The class block never issues a collaborator call. -/
theorem cdcClassBlock_calls (c : Consts) (r : Device × Bool) :
    (cdcClassBlock c r).1.calls = r.1.calls := by
  unfold cdcClassBlock
  dsimp only
  split_ifs <;> rfl

/-- The class block never clears `success`. -/
theorem cdcClassBlock_keeps_success (c : Consts) (r : Device × Bool) (h : r.2 = true) :
    (cdcClassBlock c r).2 = true := by
  unfold cdcClassBlock
  dsimp only
  split_ifs <;> first | rfl | exact h

/-- The class block sets `success` on each of its three request codes. -/
theorem cdcClassBlock_hit (c : Consts) (r : Device × Bool)
    (hT : r.1.transfer.setup.bmRequestType.Type_ = c.CLASS_TYPE)
    (hb : r.1.transfer.setup.bRequest = CDC_GET_LINE_CODING ∨
      r.1.transfer.setup.bRequest = CDC_SET_LINE_CODING ∨
      r.1.transfer.setup.bRequest = CDC_SET_CONTROL_LINE_STATE) :
    (cdcClassBlock c r).2 = true := by
  unfold cdcClassBlock
  dsimp only
  rw [if_pos hT]
  split_ifs with h1 h2 h3 h4
  · rfl
  · rfl
  · rfl
  · rfl
  · rcases hb with hb | hb | hb
    · exact absurd hb h1
    · exact absurd hb h2
    · exact absurd hb h3

/-- C4: provided STANDARD, CLASS and VENDOR are three different request types and DEVICE and
INTERFACE two different recipients, at most one of the six own predicates holds for a setup
packet; the dispatcher then reports handled and the state it leaves is exactly the effect of
that predicate; and when the predicate is one of the three OS-descriptor ones, no CDC effect
is applied on top: notify, ConnectionFlag and LineCoding are as before, the pointer is not
redirected to the line coding, and no collaborator is called. -/
theorem dispatcher_predicates_mutually_exclusive (c : Consts) (e : Collaborators)
    (st : Device)
    (hSC : c.STANDARD_TYPE ≠ c.CLASS_TYPE) (hVC : c.VENDOR_TYPE ≠ c.CLASS_TYPE)
    (hSV : c.STANDARD_TYPE ≠ c.VENDOR_TYPE)
    (hR : c.DEVICE_RECIPIENT ≠ c.INTERFACE_RECIPIENT) :
    (∀ p q : Predicate, p.holds c st.transfer.setup → q.holds c st.transfer.setup → p = q) ∧
    (∀ p : Predicate, p.holds c st.transfer.setup →
      USBCallback_request c e st = (p.effect c st, true)) ∧
    (∀ p : Predicate, p.isOsDescriptor = true → p.holds c st.transfer.setup →
      (USBCallback_request c e st).1.transfer.notify = st.transfer.notify ∧
      (USBCallback_request c e st).1.cdc_connected = st.cdc_connected ∧
      (USBCallback_request c e st).1.cdc_line_coding = st.cdc_line_coding ∧
      (USBCallback_request c e st).1.transfer.ptr ≠ Ptr.cdc_line_coding ∧
      (USBCallback_request c e st).1.calls = st.calls) := by
  refine ⟨fun p q hp hq => Predicate.holds_unique c _ hSC hVC hSV hR p q hp hq,
    fun p hp => USBCallback_request_of_holds c e st hSC hVC hSV hR p hp, ?_⟩
  intro p hos hp
  rw [USBCallback_request_of_holds c e st hSC hVC hSV hR p hp]
  cases p <;> simp [Predicate.isOsDescriptor] at hos <;>
    simp [Predicate.effect, declareAnswer]

/-- Instance of C4: an extended-properties request with wIndex 5 on a fresh device. -/
theorem dispatcher_predicates_mutually_exclusive_witness :
    usbConsts.STANDARD_TYPE ≠ usbConsts.CLASS_TYPE ∧
    usbConsts.VENDOR_TYPE ≠ usbConsts.CLASS_TYPE ∧
    usbConsts.STANDARD_TYPE ≠ usbConsts.VENDOR_TYPE ∧
    usbConsts.DEVICE_RECIPIENT ≠ usbConsts.INTERFACE_RECIPIENT ∧
    Predicate.extendedProperties.holds usbConsts (extendedPropertiesRequest usbConsts 5) ∧
    USBCallback_request usbConsts quietCollaborators
        (freshDevice usbConsts (extendedPropertiesRequest usbConsts 5)) =
      (Predicate.extendedProperties.effect usbConsts
        (freshDevice usbConsts (extendedPropertiesRequest usbConsts 5)), true) :=
  ⟨by decide, by decide, by decide, by decide, ⟨rfl, rfl, rfl, Or.inl rfl⟩,
    (dispatcher_predicates_mutually_exclusive usbConsts quietCollaborators
      (freshDevice usbConsts (extendedPropertiesRequest usbConsts 5))
      (by decide) (by decide) (by decide) (by decide)).2.1
      Predicate.extendedProperties ⟨rfl, rfl, rfl, Or.inl rfl⟩⟩

/-- C6 (code defect): the extended-properties table has 142 bytes, and 142 is the transfer
length the dispatcher declares for it, but its dwLength field says 140; its property section
(offset 10 to the end) has 132 bytes, but the section-size field says 130. The two inner
length fields are right: wPropertyNameLength is 40, the byte count of the NUL-terminated
UTF-16LE name "DeviceInterfaceGUID", and dwPropertyDataLength is 78, the byte count of the
NUL-terminated UTF-16LE GUID string. -/
theorem msftExtendedProperties_length_fields (c : Consts) :
    (msftExtendedPropertiesDescriptor c).length = 142 ∧
    le32 (msftExtendedPropertiesDescriptor c) 0 = 140 ∧
    (USBCallback_request usbConsts quietCollaborators
      (freshDevice usbConsts (extendedPropertiesRequest usbConsts 5))).1.transfer.remaining
      = 142 ∧
    ((msftExtendedPropertiesDescriptor c).drop 10).length = 132 ∧
    le32 (msftExtendedPropertiesDescriptor c) 10 = 130 ∧
    4 + 4 + 2 + 40 + 4 + 78 = 132 ∧
    le16 (msftExtendedPropertiesDescriptor c) 18 = 40 ∧
    slice (msftExtendedPropertiesDescriptor c) 20 40 =
      utf16le "DeviceInterfaceGUID" ++ [0, 0] ∧
    (utf16le "DeviceInterfaceGUID" ++ [0, 0]).length = 40 ∧
    le32 (msftExtendedPropertiesDescriptor c) 60 = 78 ∧
    slice (msftExtendedPropertiesDescriptor c) 64 78 =
      utf16le "\x7bF35E1B9F-9EF1-4D71-99DC-B1CBC80EC143\x7d" ++ [0, 0] ∧
    (utf16le "\x7bF35E1B9F-9EF1-4D71-99DC-B1CBC80EC143\x7d" ++ [0, 0]).length = 78 ∧
    64 + 78 = (msftExtendedPropertiesDescriptor c).length := by
  refine ⟨rfl, rfl, rfl, rfl, rfl, rfl, rfl, ?_, by decide, rfl, ?_, by decide, rfl⟩
  · rfl
  · rfl

/-! ## Control line state and the write gate -/

/-- C7: for every class request with bRequest 0x22 and every prior state, when CLASS differs
from STANDARD and VENDOR, the dispatcher reports handled and leaves ConnectionFlag true if
and only if bit 0 of wValue is 1, whatever the flag was and whatever the other bits of wValue
are; the control transfer (remaining, pointer, direction, notify), LineCoding and the call
history are exactly as before. -/
theorem setControlLineState_sets_flag_from_DTR (c : Consts) (e : Collaborators)
    (st : Device)
    (hSC : c.STANDARD_TYPE ≠ c.CLASS_TYPE) (hVC : c.VENDOR_TYPE ≠ c.CLASS_TYPE)
    (h : isClassRequest c CDC_SET_CONTROL_LINE_STATE st.transfer.setup) :
    (USBCallback_request c e st).2 = true ∧
    ((USBCallback_request c e st).1.cdc_connected = true ↔
      st.transfer.setup.wValue % 2 = 1) ∧
    (USBCallback_request c e st).1.cdc_connected = st.transfer.setup.wValue.testBit 0 ∧
    (USBCallback_request c e st).1.transfer = st.transfer ∧
    (USBCallback_request c e st).1.cdc_line_coding = st.cdc_line_coding ∧
    (USBCallback_request c e st).1.calls = st.calls := by
  rw [USBCallback_request_setControlLineState c e st hSC hVC h]
  refine ⟨rfl, by simp, ?_, rfl, rfl, rfl⟩
  simp [Nat.testBit_zero]

/-- Instance of C7: wValue 2 (RTS set, DTR clear) on a device whose flag is set clears it. -/
theorem setControlLineState_sets_flag_from_DTR_witness :
    usbConsts.STANDARD_TYPE ≠ usbConsts.CLASS_TYPE ∧
    usbConsts.VENDOR_TYPE ≠ usbConsts.CLASS_TYPE ∧
    isClassRequest usbConsts CDC_SET_CONTROL_LINE_STATE
      (classRequest usbConsts CDC_SET_CONTROL_LINE_STATE 2 0) ∧
    (USBCallback_request usbConsts quietCollaborators
      { freshDevice usbConsts (classRequest usbConsts CDC_SET_CONTROL_LINE_STATE 2 0) with
        cdc_connected := true }).1.cdc_connected = false :=
  have h := setControlLineState_sets_flag_from_DTR usbConsts quietCollaborators
    { freshDevice usbConsts (classRequest usbConsts CDC_SET_CONTROL_LINE_STATE 2 0) with
      cdc_connected := true } (by decide) (by decide) ⟨rfl, rfl⟩
  ⟨by decide, by decide, ⟨rfl, rfl⟩, h.2.2.1.trans (by decide)⟩

/-- C8: after the dispatcher has handled a class request SET_CONTROL_LINE_STATE (CLASS being
different from STANDARD and VENDOR), `write(buffer, size, isCDC = true)` does this: if bit 0
of wValue is 1 it makes exactly one transmit call, on EPBULK_IN with the caller's buffer and
size and the bulk packet size, and returns that call's answer; if bit 0 of wValue is 0 it
returns false and makes no call. -/
theorem write_after_setControlLineState (c : Consts) (e : Collaborators) (st : Device)
    (buffer : List Nat) (size : Nat)
    (hSC : c.STANDARD_TYPE ≠ c.CLASS_TYPE) (hVC : c.VENDOR_TYPE ≠ c.CLASS_TYPE)
    (h : isClassRequest c CDC_SET_CONTROL_LINE_STATE st.transfer.setup) :
    (st.transfer.setup.wValue % 2 = 1 →
      write c e buffer size true (USBCallback_request c e st).1 =
        ({ (USBCallback_request c e st).1 with
            calls := st.calls ++
              [Call.write c.EPBULK_IN buffer size c.MAX_PACKET_SIZE_EPBULK] },
          e.answer st.calls (Call.write c.EPBULK_IN buffer size c.MAX_PACKET_SIZE_EPBULK))) ∧
    (st.transfer.setup.wValue % 2 = 0 →
      write c e buffer size true (USBCallback_request c e st).1 =
        ((USBCallback_request c e st).1, false)) := by
  rw [USBCallback_request_setControlLineState c e st hSC hVC h]
  constructor
  · intro hb
    simp [write, hb, Collaborators.call, CDC_ENDPOINT_IN, MAX_CDC_REPORT_SIZE]
  · intro hb
    simp [write, hb]

/-- Instance of C8: with wValue 1 the write reaches the engine and returns its answer (here a
failure); with wValue 0 nothing is sent. -/
theorem write_after_setControlLineState_witness :
    usbConsts.STANDARD_TYPE ≠ usbConsts.CLASS_TYPE ∧
    usbConsts.VENDOR_TYPE ≠ usbConsts.CLASS_TYPE ∧
    isClassRequest usbConsts CDC_SET_CONTROL_LINE_STATE
      (classRequest usbConsts CDC_SET_CONTROL_LINE_STATE 1 0) ∧
    (write usbConsts failingCollaborators [0x41] 1 true
      (USBCallback_request usbConsts failingCollaborators
        (freshDevice usbConsts (classRequest usbConsts CDC_SET_CONTROL_LINE_STATE 1 0))).1).1.calls
      = [Call.write 5 [0x41] 1 64] ∧
    (write usbConsts quietCollaborators [0x41] 1 true
      (USBCallback_request usbConsts quietCollaborators
        (freshDevice usbConsts (classRequest usbConsts CDC_SET_CONTROL_LINE_STATE 0 0))).1).1.calls
      = [] := by
  have h1 := (write_after_setControlLineState usbConsts failingCollaborators
    (freshDevice usbConsts (classRequest usbConsts CDC_SET_CONTROL_LINE_STATE 1 0))
    [0x41] 1 (by decide) (by decide) ⟨rfl, rfl⟩).1 (by decide)
  have h0 := (write_after_setControlLineState usbConsts quietCollaborators
    (freshDevice usbConsts (classRequest usbConsts CDC_SET_CONTROL_LINE_STATE 0 0))
    [0x41] 1 (by decide) (by decide) ⟨rfl, rfl⟩).2 (by decide)
  refine ⟨by decide, by decide, ⟨rfl, rfl⟩, ?_, ?_⟩
  · rw [h1]; rfl
  · rw [h0]; rfl

/-! ## Fall-through -/

/-- C9: when none of the six own predicates holds (a class request with another bRequest
included), the dispatcher calls the vendor-request collaborator exactly once, on the
unmodified control transfer, and returns exactly its answer; ConnectionFlag and LineCoding
are untouched and the control transfer is what the collaborator left, so with the answer
'not handled' the dispatcher reports 'not handled' having changed nothing itself. Conversely,
when an own predicate holds the dispatcher reports handled and calls no collaborator. -/
theorem dispatcher_falls_through_to_collaborator (c : Consts) (e : Collaborators)
    (st : Device) :
    ((∀ p : Predicate, ¬ p.holds c st.transfer.setup) →
      USBCallback_request c e st =
        ({ st with transfer := (e.webusbRequest st.calls st.transfer).1,
                   calls := st.calls ++ [Call.webusbRequest] },
          (e.webusbRequest st.calls st.transfer).2)) ∧
    ((∃ p : Predicate, p.holds c st.transfer.setup) →
      (USBCallback_request c e st).2 = true ∧
      (USBCallback_request c e st).1.calls = st.calls) := by
  constructor
  · intro hnone
    have h1 : ¬ isMsftStringRequest c st.transfer.setup := hnone Predicate.msftString
    have h2 : ¬ isCompatibleIdRequest c st.transfer.setup := hnone Predicate.compatibleId
    have h3 : ¬ isExtendedPropertiesRequest c st.transfer.setup :=
      hnone Predicate.extendedProperties
    have h4 : ¬ isClassRequest c CDC_GET_LINE_CODING st.transfer.setup :=
      hnone Predicate.getLineCoding
    have h5 : ¬ isClassRequest c CDC_SET_LINE_CODING st.transfer.setup :=
      hnone Predicate.setLineCoding
    have h6 : ¬ isClassRequest c CDC_SET_CONTROL_LINE_STATE st.transfer.setup :=
      hnone Predicate.setControlLineState
    have hcls : cdcClassBlock c (st, false) = (st, false) := by
      unfold cdcClassBlock
      dsimp only
      by_cases hT : st.transfer.setup.bmRequestType.Type_ = c.CLASS_TYPE
      · rw [if_pos hT, if_neg (fun hb => h4 ⟨hT, hb⟩), if_neg (fun hb => h5 ⟨hT, hb⟩),
          if_neg (fun hb => h6 ⟨hT, hb⟩)]
      · rw [if_neg hT]
    unfold USBCallback_request
    rw [osDescriptorChain_miss c (st, false) h1 h2 h3, hcls]
    simp [webusbFallback]
  · rintro ⟨p, hp⟩
    have hok : (cdcClassBlock c (osDescriptorChain c (st, false))).2 = true := by
      cases p
      · exact cdcClassBlock_keeps_success c _ (osDescriptorChain_hit c _ (Or.inl hp))
      · exact cdcClassBlock_keeps_success c _ (osDescriptorChain_hit c _ (Or.inr (Or.inl hp)))
      · exact cdcClassBlock_keeps_success c _ (osDescriptorChain_hit c _ (Or.inr (Or.inr hp)))
      · have h : isClassRequest c CDC_GET_LINE_CODING st.transfer.setup := hp
        exact cdcClassBlock_hit c _ (by rw [osDescriptorChain_setup]; exact h.1)
          (by rw [osDescriptorChain_setup]; exact Or.inl h.2)
      · have h : isClassRequest c CDC_SET_LINE_CODING st.transfer.setup := hp
        exact cdcClassBlock_hit c _ (by rw [osDescriptorChain_setup]; exact h.1)
          (by rw [osDescriptorChain_setup]; exact Or.inr (Or.inl h.2))
      · have h : isClassRequest c CDC_SET_CONTROL_LINE_STATE st.transfer.setup := hp
        exact cdcClassBlock_hit c _ (by rw [osDescriptorChain_setup]; exact h.1)
          (by rw [osDescriptorChain_setup]; exact Or.inr (Or.inr h.2))
    have hfb : USBCallback_request c e st = cdcClassBlock c (osDescriptorChain c (st, false)) := by
      unfold USBCallback_request webusbFallback
      simp [hok]
    rw [hfb]
    exact ⟨hok, by rw [cdcClassBlock_calls, osDescriptorChain_calls]⟩

/-- Instance of C9: the class request SEND_BREAK (bRequest 0x23) matches no own predicate; the
collaborator rejects it and the dispatcher reports 'not handled' with one collaborator call
and an otherwise unchanged device. -/
theorem dispatcher_falls_through_to_collaborator_witness :
    (∀ p : Predicate, ¬ p.holds usbConsts (classRequest usbConsts 0x23 0 0)) ∧
    USBCallback_request usbConsts quietCollaborators
        (freshDevice usbConsts (classRequest usbConsts 0x23 0 0)) =
      ({ freshDevice usbConsts (classRequest usbConsts 0x23 0 0) with
          calls := [Call.webusbRequest] }, false) := by
  have hnone : ∀ p : Predicate, ¬ p.holds usbConsts (classRequest usbConsts 0x23 0 0) := by
    intro p
    cases p <;>
      simp [Predicate.holds, classRequest, usbConsts, CDC_GET_LINE_CODING, CDC_SET_LINE_CODING,
        CDC_SET_CONTROL_LINE_STATE]
  exact ⟨hnone, (dispatcher_falls_through_to_collaborator usbConsts quietCollaborators
    (freshDevice usbConsts (classRequest usbConsts 0x23 0 0))).1 hnone⟩

/-! ## The MSFT100 string -/

/-- C10: for every setup packet of type STANDARD with bRequest GET_DESCRIPTOR, high byte of
wValue the STRING descriptor type and low byte 0xEE, whatever its other fields, and STANDARD
being different from CLASS, the dispatcher reports handled and declares a device-to-host
transfer of 18 bytes at the MSFT100 table. The table has 18 bytes: bLength 0x12, the STRING
descriptor type, "MSFT100" in UTF-16LE, WINUSB_VENDOR_CODE and a zero pad; the vendor-code
byte is the value the compatible-ID and extended-properties predicates require of bRequest. -/
theorem msftString_request_answers_signature (c : Consts) (e : Collaborators) (st : Device)
    (hSC : c.STANDARD_TYPE ≠ c.CLASS_TYPE)
    (h : isMsftStringRequest c st.transfer.setup) :
    USBCallback_request c e st =
      ({ st with transfer := { st.transfer with
          remaining := 18, ptr := Ptr.msftStringDescriptor,
          direction := c.DEVICE_TO_HOST } }, true) ∧
    response c (USBCallback_request c e st).1 = some (msftStringDescriptor c) ∧
    (msftStringDescriptor c).length = 18 ∧
    (msftStringDescriptor c).headD 0 = (msftStringDescriptor c).length ∧
    msftStringDescriptor c =
      [0x12, c.STRING_DESCRIPTOR] ++ utf16le "MSFT100" ++ [c.WINUSB_VENDOR_CODE, 0] ∧
    (∀ s : SETUP_PACKET, isCompatibleIdRequest c s ∨ isExtendedPropertiesRequest c s →
      s.bRequest = (msftStringDescriptor c).getD 16 0) := by
  rw [USBCallback_request_msftString c e st hSC h]
  refine ⟨rfl, rfl, rfl, rfl, rfl, ?_⟩
  rintro s (hs | hs)
  · exact hs.2.2.1
  · exact hs.2.2.1

/-- Instance of C10: GET_DESCRIPTOR with wValue 0x03EE on a fresh device. -/
theorem msftString_request_answers_signature_witness :
    usbConsts.STANDARD_TYPE ≠ usbConsts.CLASS_TYPE ∧
    isMsftStringRequest usbConsts msftStringRequest ∧
    response usbConsts (USBCallback_request usbConsts quietCollaborators
        (freshDevice usbConsts msftStringRequest)).1 =
      some [0x12, 0x03, 0x4d, 0, 0x53, 0, 0x46, 0, 0x54, 0, 0x31, 0, 0x30, 0, 0x30, 0,
        0x21, 0] :=
  ⟨by decide, ⟨rfl, rfl, rfl, rfl⟩,
    (msftString_request_answers_signature usbConsts quietCollaborators
      (freshDevice usbConsts msftStringRequest) (by decide) ⟨rfl, rfl, rfl, rfl⟩).2.1.trans
      rfl⟩

/-! ## The compatible-ID and extended-properties requests -/

/-- The dispatcher when none of the own predicates holds: one call to the vendor-request
collaborator on the unmodified transfer, whose answer is returned. -/
theorem USBCallback_request_no_predicate (c : Consts) (e : Collaborators) (st : Device)
    (h1 : ¬ isMsftStringRequest c st.transfer.setup)
    (h2 : ¬ isCompatibleIdRequest c st.transfer.setup)
    (h3 : ¬ isExtendedPropertiesRequest c st.transfer.setup)
    (h4 : st.transfer.setup.bmRequestType.Type_ ≠ c.CLASS_TYPE) :
    USBCallback_request c e st =
      ({ st with transfer := (e.webusbRequest st.calls st.transfer).1,
                 calls := st.calls ++ [Call.webusbRequest] },
        (e.webusbRequest st.calls st.transfer).2) := by
  unfold USBCallback_request
  rw [osDescriptorChain_miss c (st, false) h1 h2 h3, cdcClassBlock_other_type c (st, false) h4]
  simp [webusbFallback]

/-- A 16-bit constant is what its low and high byte spell. -/
theorem LSB_add_MSB (n : Nat) (hn : n < 65536) : LSB n + 256 * MSB n = n := by
  unfold LSB MSB
  omega

/-- C11: for every setup packet of type VENDOR to the DEVICE with bRequest WINUSB_VENDOR_CODE
and wIndex the compatible-ID feature index (a 16-bit value), whatever wValue and wLength, and
VENDOR being different from STANDARD and CLASS, the dispatcher reports handled and declares a
device-to-host transfer of the compatible-ID table with length 40. The table has 40 bytes,
its dwLength field is 40, its wIndex field repeats the feature index, its section count is 1,
its bFirstInterfaceNumber is the WebUSB interface number 2 and its 8-byte compatible ID is
"WINUSB" followed by two zero bytes. -/
theorem compatibleId_request_answers_table (c : Consts) (e : Collaborators) (st : Device)
    (hVC : c.VENDOR_TYPE ≠ c.CLASS_TYPE) (hSV : c.STANDARD_TYPE ≠ c.VENDOR_TYPE)
    (h : isCompatibleIdRequest c st.transfer.setup)
    (hw : st.transfer.setup.wIndex < 65536) :
    USBCallback_request c e st =
      ({ st with transfer := { st.transfer with
          remaining := 40, ptr := Ptr.msftCompatibleIdDescriptor,
          direction := c.DEVICE_TO_HOST } }, true) ∧
    response c (USBCallback_request c e st).1 = some (msftCompatibleIdDescriptor c) ∧
    (msftCompatibleIdDescriptor c).length = 40 ∧
    le32 (msftCompatibleIdDescriptor c) 0 = 40 ∧
    le16 (msftCompatibleIdDescriptor c) 6 = st.transfer.setup.wIndex ∧
    le16 (msftCompatibleIdDescriptor c) 6 = c.WINUSB_GET_COMPATIBLE_ID_FEATURE_DESCRIPTOR ∧
    (msftCompatibleIdDescriptor c).getD 8 0 = 1 ∧
    (msftCompatibleIdDescriptor c).getD 16 0 = WEBUSB_INTERFACE_NUMBER ∧
    WEBUSB_INTERFACE_NUMBER = 2 ∧
    slice (msftCompatibleIdDescriptor c) 18 8 = ascii "WINUSB" ++ [0, 0] := by
  have hidx : c.WINUSB_GET_COMPATIBLE_ID_FEATURE_DESCRIPTOR < 65536 := by
    rw [← h.2.2.2]; exact hw
  have hfield : le16 (msftCompatibleIdDescriptor c) 6 =
      c.WINUSB_GET_COMPATIBLE_ID_FEATURE_DESCRIPTOR :=
    LSB_add_MSB c.WINUSB_GET_COMPATIBLE_ID_FEATURE_DESCRIPTOR hidx
  rw [USBCallback_request_compatibleId c e st hVC hSV h]
  refine ⟨rfl, rfl, rfl, rfl, ?_, hfield, rfl, rfl, rfl, rfl⟩
  rw [hfield, h.2.2.2]

/-- Instance of C11: the compatible-ID request on a fresh device. -/
theorem compatibleId_request_answers_table_witness :
    usbConsts.VENDOR_TYPE ≠ usbConsts.CLASS_TYPE ∧
    usbConsts.STANDARD_TYPE ≠ usbConsts.VENDOR_TYPE ∧
    isCompatibleIdRequest usbConsts (compatibleIdRequest usbConsts) ∧
    (compatibleIdRequest usbConsts).wIndex < 65536 ∧
    response usbConsts (USBCallback_request usbConsts quietCollaborators
        (freshDevice usbConsts (compatibleIdRequest usbConsts))).1 =
      some [0x28, 0, 0, 0, 0x00, 0x01, 0x04, 0x00, 0x01, 0, 0, 0, 0, 0, 0, 0, 2, 0,
        0x57, 0x49, 0x4e, 0x55, 0x53, 0x42, 0, 0, 0, 0, 0, 0, 0, 0, 0, 0,
        0, 0, 0, 0, 0, 0] :=
  ⟨by decide, by decide, ⟨rfl, rfl, rfl, rfl⟩, by decide,
    (compatibleId_request_answers_table usbConsts quietCollaborators
      (freshDevice usbConsts (compatibleIdRequest usbConsts)) (by decide) (by decide)
      ⟨rfl, rfl, rfl, rfl⟩ (by decide)).2.1.trans rfl⟩

/-- C12: for every setup packet of type VENDOR to an INTERFACE with bRequest
WINUSB_VENDOR_CODE (STANDARD, CLASS, VENDOR being three different types and DEVICE, INTERFACE
two different recipients), whatever wValue: the dispatcher itself answers with the
extended-properties table (handled, device-to-host, length the table's byte count, no
collaborator call) if and only if wIndex is the extended-properties feature index or the
WebUSB interface number 2; for every other wIndex no own predicate holds and the packet goes
to the vendor-request collaborator, whose answer is returned. -/
theorem extendedProperties_request_guard (c : Consts) (e : Collaborators) (st : Device)
    (hVC : c.VENDOR_TYPE ≠ c.CLASS_TYPE) (hSV : c.STANDARD_TYPE ≠ c.VENDOR_TYPE)
    (hR : c.DEVICE_RECIPIENT ≠ c.INTERFACE_RECIPIENT)
    (hT : st.transfer.setup.bmRequestType.Type_ = c.VENDOR_TYPE)
    (hI : st.transfer.setup.bmRequestType.Recipient = c.INTERFACE_RECIPIENT)
    (hB : st.transfer.setup.bRequest = c.WINUSB_VENDOR_CODE) :
    ((st.transfer.setup.wIndex = c.WINUSB_GET_EXTENDED_PROPERTIES_OS_FEATURE_DESCRIPTOR ∨
        st.transfer.setup.wIndex = 2) ↔
      USBCallback_request c e st =
        ({ st with transfer := { st.transfer with
            remaining := (msftExtendedPropertiesDescriptor c).length,
            ptr := Ptr.msftExtendedPropertiesDescriptor,
            direction := c.DEVICE_TO_HOST } }, true)) ∧
    (¬ (st.transfer.setup.wIndex = c.WINUSB_GET_EXTENDED_PROPERTIES_OS_FEATURE_DESCRIPTOR ∨
        st.transfer.setup.wIndex = 2) →
      (∀ p : Predicate, ¬ p.holds c st.transfer.setup) ∧
      USBCallback_request c e st =
        ({ st with transfer := (e.webusbRequest st.calls st.transfer).1,
                   calls := st.calls ++ [Call.webusbRequest] },
          (e.webusbRequest st.calls st.transfer).2)) := by
  have h1 : ¬ isMsftStringRequest c st.transfer.setup := fun h => hSV (h.1.symm.trans hT)
  have h2 : ¬ isCompatibleIdRequest c st.transfer.setup := fun h => hR (h.2.1.symm.trans hI)
  have h4 : st.transfer.setup.bmRequestType.Type_ ≠ c.CLASS_TYPE := by
    rw [hT]; exact hVC
  have hmiss : ¬ (st.transfer.setup.wIndex =
        c.WINUSB_GET_EXTENDED_PROPERTIES_OS_FEATURE_DESCRIPTOR ∨
        st.transfer.setup.wIndex = 2) →
      USBCallback_request c e st =
        ({ st with transfer := (e.webusbRequest st.calls st.transfer).1,
                   calls := st.calls ++ [Call.webusbRequest] },
          (e.webusbRequest st.calls st.transfer).2) := fun hw =>
    USBCallback_request_no_predicate c e st h1 h2 (fun h => hw h.2.2.2) h4
  refine ⟨⟨fun hw => ?_, fun hres => ?_⟩, fun hw => ⟨?_, hmiss hw⟩⟩
  · exact USBCallback_request_extendedProperties c e st hVC hSV hR ⟨hT, hI, hB, hw⟩
  · by_contra hw
    have hcalls := congrArg (fun r => r.1.calls.length) ((hmiss hw).symm.trans hres)
    simp at hcalls
  · intro p
    cases p
    · exact h1
    · exact h2
    · exact fun h => hw h.2.2.2
    · exact fun h => h4 h.1
    · exact fun h => h4 h.1
    · exact fun h => h4 h.1

/-- Instance of C12: with wIndex 2 the table is served (142 bytes declared); with wIndex 7
the packet goes to the collaborator, which here rejects it. -/
theorem extendedProperties_request_guard_witness :
    usbConsts.VENDOR_TYPE ≠ usbConsts.CLASS_TYPE ∧
    usbConsts.STANDARD_TYPE ≠ usbConsts.VENDOR_TYPE ∧
    usbConsts.DEVICE_RECIPIENT ≠ usbConsts.INTERFACE_RECIPIENT ∧
    (USBCallback_request usbConsts quietCollaborators
      (freshDevice usbConsts (extendedPropertiesRequest usbConsts 2))).1.transfer.ptr
      = Ptr.msftExtendedPropertiesDescriptor ∧
    USBCallback_request usbConsts quietCollaborators
        (freshDevice usbConsts (extendedPropertiesRequest usbConsts 7)) =
      ({ freshDevice usbConsts (extendedPropertiesRequest usbConsts 7) with
          calls := [Call.webusbRequest] }, false) := by
  have h2 := (extendedProperties_request_guard usbConsts quietCollaborators
    (freshDevice usbConsts (extendedPropertiesRequest usbConsts 2))
    (by decide) (by decide) (by decide) rfl rfl rfl).1.1 (Or.inr rfl)
  have h7 := ((extendedProperties_request_guard usbConsts quietCollaborators
    (freshDevice usbConsts (extendedPropertiesRequest usbConsts 7))
    (by decide) (by decide) (by decide) rfl rfl rfl).2 (by decide)).2
  refine ⟨by decide, by decide, by decide, ?_, ?_⟩
  · rw [h2]
  · rw [h7]; rfl

/-! ## GET_LINE_CODING -/

/-- C13: for every class request with bRequest 0x21 and every device state whose LineCoding
record has its 7 bytes (CLASS being different from STANDARD and VENDOR), the dispatcher
reports handled and declares a device-to-host transfer of exactly 7 bytes at the LineCoding
record, so the answer is the current record; LineCoding and ConnectionFlag are unchanged. On
a freshly constructed device the record is 80 25 00 00 00 00 08: baud rate 9600
(little-endian), stop-bits code 0, parity code 0, 8 data bits. -/
theorem getLineCoding_answers_current_record (c : Consts) (e : Collaborators) (st : Device)
    (hSC : c.STANDARD_TYPE ≠ c.CLASS_TYPE) (hVC : c.VENDOR_TYPE ≠ c.CLASS_TYPE)
    (h : isClassRequest c CDC_GET_LINE_CODING st.transfer.setup)
    (hlen : st.cdc_line_coding.length = 7) :
    USBCallback_request c e st =
      ({ st with transfer := { st.transfer with
          remaining := 7, ptr := Ptr.cdc_line_coding,
          direction := c.DEVICE_TO_HOST } }, true) ∧
    response c (USBCallback_request c e st).1 = some st.cdc_line_coding ∧
    (USBCallback_request c e st).1.cdc_line_coding = st.cdc_line_coding ∧
    (USBCallback_request c e st).1.cdc_connected = st.cdc_connected ∧
    (∀ s : SETUP_PACKET, (freshDevice c s).cdc_line_coding =
      [0x80, 0x25, 0x00, 0x00, 0x00, 0x00, 0x08]) ∧
    le32 cdc_line_coding_init 0 = 9600 ∧
    cdc_line_coding_init.getD 4 0 = 0 ∧
    cdc_line_coding_init.getD 5 0 = 0 ∧
    cdc_line_coding_init.getD 6 0 = 8 := by
  rw [USBCallback_request_getLineCoding c e st hSC hVC h]
  refine ⟨rfl, ?_, rfl, rfl, fun _ => rfl, rfl, rfl, rfl, rfl⟩
  simp [response, declareAnswer, bytesAt, ← hlen]

/-- Instance of C13: GET_LINE_CODING on a fresh device answers 80 25 00 00 00 00 08. -/
theorem getLineCoding_answers_current_record_witness :
    usbConsts.STANDARD_TYPE ≠ usbConsts.CLASS_TYPE ∧
    usbConsts.VENDOR_TYPE ≠ usbConsts.CLASS_TYPE ∧
    isClassRequest usbConsts CDC_GET_LINE_CODING
      (classRequest usbConsts CDC_GET_LINE_CODING 0 7) ∧
    (freshDevice usbConsts (classRequest usbConsts CDC_GET_LINE_CODING 0 7)).cdc_line_coding.length
      = 7 ∧
    response usbConsts (USBCallback_request usbConsts quietCollaborators
        (freshDevice usbConsts (classRequest usbConsts CDC_GET_LINE_CODING 0 7))).1 =
      some [0x80, 0x25, 0x00, 0x00, 0x00, 0x00, 0x08] :=
  ⟨by decide, by decide, ⟨rfl, rfl⟩, rfl,
    (getLineCoding_answers_current_record usbConsts quietCollaborators
      (freshDevice usbConsts (classRequest usbConsts CDC_GET_LINE_CODING 0 7))
      (by decide) (by decide) ⟨rfl, rfl⟩ rfl).2.1.trans rfl⟩

/-! ## The data path -/

/-- C14: for every buffer, size, isCDC and state: if isCDC is true and ConnectionFlag is
false, `write` returns false and makes no call; in every other case it makes exactly one
call, the transmit on EPBULK_IN (isCDC) or EP5IN (not isCDC) with the caller's buffer and
size and the bulk packet size, and returns exactly that call's answer. In all cases the
control transfer, ConnectionFlag and LineCoding are unchanged. -/
theorem write_contract (c : Consts) (e : Collaborators) (buffer : List Nat) (size : Nat)
    (isCDC : Bool) (st : Device) :
    (isCDC = true ∧ st.cdc_connected = false →
      write c e buffer size isCDC st = (st, false)) ∧
    (¬ (isCDC = true ∧ st.cdc_connected = false) →
      write c e buffer size isCDC st =
        ({ st with calls := st.calls ++ [transmitCall c buffer size isCDC] },
          e.answer st.calls (transmitCall c buffer size isCDC))) ∧
    (write c e buffer size isCDC st).1.cdc_connected = st.cdc_connected ∧
    (write c e buffer size isCDC st).1.cdc_line_coding = st.cdc_line_coding ∧
    (write c e buffer size isCDC st).1.transfer = st.transfer := by
  cases isCDC <;> cases hf : st.cdc_connected <;>
    simp [write, hf, transmitCall, Collaborators.call, CDC_ENDPOINT_IN, WEBUSB_ENDPOINT_IN,
      MAX_CDC_REPORT_SIZE]

/-- Instance of C14: a CDC write on a fresh (disconnected) device is refused without a call,
a WebUSB write on the same device is transmitted on EP5IN. -/
theorem write_contract_witness :
    write usbConsts quietCollaborators [0x41, 0x42] 2 true
        (freshDevice usbConsts (classRequest usbConsts 0 0 0)) =
      (freshDevice usbConsts (classRequest usbConsts 0 0 0), false) ∧
    write usbConsts quietCollaborators [0x41, 0x42] 2 false
        (freshDevice usbConsts (classRequest usbConsts 0 0 0)) =
      ({ freshDevice usbConsts (classRequest usbConsts 0 0 0) with
          calls := [Call.write 11 [0x41, 0x42] 2 64] }, true) :=
  ⟨(write_contract usbConsts quietCollaborators [0x41, 0x42] 2 true
      (freshDevice usbConsts (classRequest usbConsts 0 0 0))).1 ⟨rfl, rfl⟩,
    ((write_contract usbConsts quietCollaborators [0x41, 0x42] 2 false
      (freshDevice usbConsts (classRequest usbConsts 0 0 0))).2.1 (by decide)).trans rfl⟩

/-- C15: for every isCDC, blocking and state: if isCDC is true and ConnectionFlag is false,
`read` returns false with no collaborator call. Otherwise its first call is the one receive
on the bulk-OUT endpoint selected by isCDC (EPBULK_OUT or EP5OUT), blocking or non-blocking
as asked; if the receive fails, that is the only call and `read` returns false; if it
succeeds, `read` re-arms the same endpoint with one `readStart`, these are the only two
calls, and `read` returns the answer of the re-arm. -/
theorem read_contract (c : Consts) (e : Collaborators) (isCDC blocking : Bool) (st : Device) :
    (isCDC = true ∧ st.cdc_connected = false →
      (read c e isCDC blocking st).1 = st ∧ (read c e isCDC blocking st).2.1 = false) ∧
    (¬ (isCDC = true ∧ st.cdc_connected = false) →
      (e.answer st.calls (receiveCall c isCDC blocking) = false →
        (read c e isCDC blocking st).1 =
          { st with calls := st.calls ++ [receiveCall c isCDC blocking] } ∧
        (read c e isCDC blocking st).2.1 = false) ∧
      (e.answer st.calls (receiveCall c isCDC blocking) = true →
        (read c e isCDC blocking st).1 =
          { st with calls := st.calls ++
              [receiveCall c isCDC blocking, rearmCall c isCDC] } ∧
        (read c e isCDC blocking st).2.1 =
          e.answer (st.calls ++ [receiveCall c isCDC blocking]) (rearmCall c isCDC))) := by
  cases isCDC <;> cases blocking <;> cases hf : st.cdc_connected <;>
    simp [read, hf, receiveCall, rearmCall, Collaborators.call, CDC_ENDPOINT_OUT,
      WEBUSB_ENDPOINT_OUT, MAX_CDC_REPORT_SIZE] <;>
    constructor <;> intro ha <;> simp [ha] <;>
    cases hb : e.answer (st.calls ++ [_]) (Call.readStart _ _) <;> simp [hb]

/-- Instance of C15: a blocking CDC read on a connected device whose engine calls succeed
makes the receive on EPBULK_OUT, then the re-arm, and returns true; when the engine calls
fail it makes the receive only and returns false. -/
theorem read_contract_witness :
    (read usbConsts quietCollaborators true true
      { freshDevice usbConsts (classRequest usbConsts 0 0 0) with cdc_connected := true }).1.calls
      = [Call.readEP 4 64, Call.readStart 4 64] ∧
    (read usbConsts quietCollaborators true true
      { freshDevice usbConsts (classRequest usbConsts 0 0 0) with cdc_connected := true }).2.1
      = true ∧
    (read usbConsts failingCollaborators true true
      { freshDevice usbConsts (classRequest usbConsts 0 0 0) with cdc_connected := true }).1.calls
      = [Call.readEP 4 64] := by
  have hq := ((read_contract usbConsts quietCollaborators true true
    { freshDevice usbConsts (classRequest usbConsts 0 0 0) with cdc_connected := true }).2
    (by decide)).2 rfl
  have hf := ((read_contract usbConsts failingCollaborators true true
    { freshDevice usbConsts (classRequest usbConsts 0 0 0) with cdc_connected := true }).2
    (by decide)).1 rfl
  refine ⟨?_, ?_, ?_⟩
  · rw [hq.1]; rfl
  · rw [hq.2]; rfl
  · rw [hf.1]; rfl

/-- C16: the WebUSB data path does not look at ConnectionFlag. For every state, every flag
value and the same collaborators, `read(isCDC = false)` and `write(isCDC = false)` on the
state with the flag replaced make the same collaborator calls and return the same result
(and the same received bytes) as on the state itself; and `read(isCDC = false)` with
ConnectionFlag false returns true whenever the receive and the re-arm succeed. -/
theorem webusb_path_ignores_connection_flag (c : Consts) (e : Collaborators)
    (buffer : List Nat) (size : Nat) (blocking : Bool) (st : Device) (flag : Bool) :
    (read c e false blocking { st with cdc_connected := flag }).2 =
      (read c e false blocking st).2 ∧
    (read c e false blocking { st with cdc_connected := flag }).1.calls =
      (read c e false blocking st).1.calls ∧
    (write c e buffer size false { st with cdc_connected := flag }).2 =
      (write c e buffer size false st).2 ∧
    (write c e buffer size false { st with cdc_connected := flag }).1.calls =
      (write c e buffer size false st).1.calls ∧
    (e.answer st.calls (receiveCall c false blocking) = true →
      e.answer (st.calls ++ [receiveCall c false blocking]) (rearmCall c false) = true →
      (read c e false blocking { st with cdc_connected := false }).2.1 = true) := by
  refine ⟨?_, ?_, ?_, ?_, ?_⟩
  · simp only [read, Collaborators.call, Bool.false_and, Bool.false_eq_true, if_false]
    split_ifs <;> rfl
  · simp only [read, Collaborators.call, Bool.false_and, Bool.false_eq_true, if_false]
    split_ifs <;> rfl
  · simp [write, Collaborators.call]
  · simp [write, Collaborators.call]
  · intro hrx harm
    cases blocking <;>
      simp_all [read, receiveCall, rearmCall, Collaborators.call, WEBUSB_ENDPOINT_OUT,
        MAX_CDC_REPORT_SIZE]

/-- Instance of C16: a WebUSB read on a fresh device, whose ConnectionFlag is false, succeeds
when the receive and the re-arm succeed. -/
theorem webusb_path_ignores_connection_flag_witness :
    (freshDevice usbConsts (classRequest usbConsts 0 0 0)).cdc_connected = false ∧
    (read usbConsts quietCollaborators false false
      { freshDevice usbConsts (classRequest usbConsts 0 0 0) with
        cdc_connected := false }).2.1 = true :=
  ⟨rfl, (webusb_path_ignores_connection_flag usbConsts quietCollaborators [] 0 false
    (freshDevice usbConsts (classRequest usbConsts 0 0 0)) false).2.2.2.2 rfl rfl⟩

/-! ## Descriptor tables -/

/-- C17: with the USB 2.0 values of the descriptor macros, the configuration descriptor has 98
bytes and its wTotalLength field (bytes 2..3, little-endian) is 98; walking it by the bLength
bytes lands exactly on its end and visits 14 sub-descriptors: one configuration header, one
interface-association descriptor, three interface descriptors, four CS_INTERFACE descriptors
and five endpoint descriptors, of which one is interrupt and four are bulk. bNumInterfaces is
3, the number of interface descriptors; bConfigurationValue is 1; and the bNumEndpoints of the
three interface descriptors, 1, 2 and 2, are the numbers of endpoint descriptors that follow
each before the next interface descriptor. -/
theorem configurationDesc_length_and_shape (c : Consts) (d : DescriptorConsts)
    (h : d.Standard) :
    (configurationDesc c d).length = 98 ∧
    le16 (configurationDesc c d) 2 = 98 ∧
    FULL_CONFIGURATION_SIZE d = 98 ∧
    (configurationDesc c d).getD 4 0 = 3 ∧
    (configurationDesc c d).getD 5 0 = 1 ∧
    ∃ subs : List (List Nat),
      splitDescriptors (configurationDesc c d) = some subs ∧
      subs.flatten = configurationDesc c d ∧
      subs.map List.length = [9, 8, 9, 5, 5, 4, 5, 7, 9, 7, 7, 9, 7, 7] ∧
      subs.map descriptorType =
        [ d.CONFIGURATION_DESCRIPTOR, IAD_DESCRIPTOR, d.INTERFACE_DESCRIPTOR, CS_INTERFACE,
          CS_INTERFACE, CS_INTERFACE, CS_INTERFACE, d.ENDPOINT_DESCRIPTOR,
          d.INTERFACE_DESCRIPTOR, d.ENDPOINT_DESCRIPTOR, d.ENDPOINT_DESCRIPTOR,
          d.INTERFACE_DESCRIPTOR, d.ENDPOINT_DESCRIPTOR, d.ENDPOINT_DESCRIPTOR ] ∧
      (ofType d.CONFIGURATION_DESCRIPTOR subs).length = 1 ∧
      (ofType IAD_DESCRIPTOR subs).length = 1 ∧
      (ofType d.INTERFACE_DESCRIPTOR subs).length = 3 ∧
      (ofType d.INTERFACE_DESCRIPTOR subs).length = (configurationDesc c d).getD 4 0 ∧
      (ofType CS_INTERFACE subs).length = 4 ∧
      (ofType d.ENDPOINT_DESCRIPTOR subs).length = 5 ∧
      (ofType d.ENDPOINT_DESCRIPTOR subs).map (fun sub => sub.getD 3 0) =
        [d.E_INTERRUPT, d.E_BULK, d.E_BULK, d.E_BULK, d.E_BULK] ∧
      d.E_INTERRUPT ≠ d.E_BULK ∧
      interfaceEndpointCounts d.INTERFACE_DESCRIPTOR d.ENDPOINT_DESCRIPTOR subs =
        [(1, 1), (2, 2), (2, 2)] := by
  obtain ⟨h1, h2, h3, h4, h5, h6, h7, h8⟩ := h
  cases d
  simp only at h1 h2 h3 h4 h5 h6 h7 h8
  subst h1 h2 h3 h4 h5 h6 h7 h8
  refine ⟨rfl, ?_, rfl, rfl, rfl, _, rfl, rfl, rfl, rfl, rfl, rfl, rfl, rfl, rfl, rfl, rfl,
    ?_, rfl⟩
  · show LSB 98 + 256 * MSB 98 = 98
    decide
  · show (3 : Nat) ≠ 2
    decide

/-- Instance of C17 at the USB 2.0 values: the walk of the configuration descriptor gives 14
sub-descriptors with these lengths. -/
theorem configurationDesc_length_and_shape_witness :
    usbDescriptorConsts.Standard ∧
    (configurationDesc usbConsts usbDescriptorConsts).length = 98 ∧
    le16 (configurationDesc usbConsts usbDescriptorConsts) 2 = 98 ∧
    (splitDescriptors (configurationDesc usbConsts usbDescriptorConsts)).map
        (List.map List.length) =
      some [9, 8, 9, 5, 5, 4, 5, 7, 9, 7, 7, 9, 7, 7] := by
  have hs : usbDescriptorConsts.Standard := ⟨rfl, rfl, rfl, rfl, rfl, rfl, rfl, rfl⟩
  have h := configurationDesc_length_and_shape usbConsts usbDescriptorConsts hs
  refine ⟨hs, h.1, h.2.1, ?_⟩
  obtain ⟨subs, hsplit, _, hlen, _⟩ := h.2.2.2.2.2
  rw [hsplit, Option.map_some', hlen]

/-- C18: each of the four string tables (interface "CDC", product "empiriKit|MOTION",
manufacturer "empiriKit", serial "00001") has bLength = 2 + 2 * (number of characters) =
its byte count, the STRING descriptor type in byte 1, and as payload the text in UTF-16LE
with no terminator. -/
theorem string_descriptors_well_formed (c : Consts) :
    IsStringDescriptor c "CDC" (stringIinterfaceDesc c) ∧
    IsStringDescriptor c "empiriKit|MOTION" (stringIproductDesc c) ∧
    IsStringDescriptor c "empiriKit" (stringImanufacturerDesc c) ∧
    IsStringDescriptor c "00001" (stringIserialDesc c) ∧
    (stringIinterfaceDesc c).length = 8 ∧
    (stringIproductDesc c).length = 34 ∧
    (stringImanufacturerDesc c).length = 20 ∧
    (stringIserialDesc c).length = 12 := by
  exact ⟨⟨rfl, rfl, rfl, rfl⟩, ⟨rfl, rfl, rfl, rfl⟩, ⟨rfl, rfl, rfl, rfl⟩, ⟨rfl, rfl, rfl, rfl⟩,
    rfl, rfl, rfl, rfl⟩

/-- C19: the landing-page URL table ("empirikit.github.io", https) and the allowed-origin URL
table ("localhost:8000", http) have bLength = 3 + (number of URL bytes) = their byte count
and end with the last URL byte. With the WebUSB header lengths 5, 4 and 3, the allowed-origins
table has 13 bytes; its wTotalLength is the sum of the bLength bytes of its three nested
headers and is 13; walking it by the bLength bytes gives exactly these three headers; the
function subset's bLength is its header length plus the one origin index; and
bConfigurationValue is 1. -/
theorem webusb_descriptors_lengths (d : DescriptorConsts) (hw : d.WebUSBLengths) :
    IsUrlDescriptor d d.WEBUSB_URL_SCHEME_HTTPS "empirikit.github.io" (urlIlandingPage d) ∧
    IsUrlDescriptor d d.WEBUSB_URL_SCHEME_HTTP "localhost:8000" (urlIallowedOrigin d) ∧
    (urlIlandingPage d).length = 22 ∧
    (urlIallowedOrigin d).length = 17 ∧
    (allowedOriginsDesc d).length = 13 ∧
    le16 (allowedOriginsDesc d) 2 =
      (allowedOriginsDesc d).getD 0 0 + (allowedOriginsDesc d).getD 5 0 +
        (allowedOriginsDesc d).getD 9 0 ∧
    le16 (allowedOriginsDesc d) 2 = (allowedOriginsDesc d).length ∧
    (splitDescriptors (allowedOriginsDesc d)).map (List.map List.length) = some [5, 4, 4] ∧
    (allowedOriginsDesc d).getD 9 0 = d.WEBUSB_FUNCTION_SUBSET_LENGTH + NUM_ORIGINS ∧
    (allowedOriginsDesc d).getD 9 0 = 3 + 1 ∧
    (allowedOriginsDesc d).getD 7 0 = 1 := by
  obtain ⟨h1, h2, h3⟩ := hw
  cases d
  simp only at h1 h2 h3
  subst h1 h2 h3
  refine ⟨⟨rfl, rfl, rfl, rfl, rfl⟩, ⟨rfl, rfl, rfl, rfl, rfl⟩, rfl, rfl, rfl, ?_, ?_, rfl, rfl,
    rfl, rfl⟩
  · show LSB 13 + 256 * MSB 13 = 5 + 4 + (3 + 1)
    decide
  · show LSB 13 + 256 * MSB 13 = 13
    decide

/-- Instance of C19 at the WebUSB draft values: the allowed-origins table is these 13
bytes. -/
theorem webusb_descriptors_lengths_witness :
    usbDescriptorConsts.WebUSBLengths ∧
    allowedOriginsDesc usbDescriptorConsts = [5, 0, 13, 0, 1, 4, 1, 1, 1, 4, 2, 2, 1] ∧
    le16 (allowedOriginsDesc usbDescriptorConsts) 2 =
      (allowedOriginsDesc usbDescriptorConsts).length :=
  ⟨⟨rfl, rfl, rfl⟩, by decide,
    (webusb_descriptors_lengths usbDescriptorConsts ⟨rfl, rfl, rfl⟩).2.2.2.2.2.2.1⟩

/-- C20: with the USB 2.0 values of the descriptor macros and the WebUSB header lengths 5, 4
and 3, the interface numbers agree across the tables. In the configuration descriptor the
three interface descriptors carry bInterfaceNumber 0, 1, 2 in this order; the
interface-association descriptor starts at interface 0 and counts 2; the Union descriptor's
master is 0, the number of the CDC control interface (class 0x02), and its slave is 1, the
number of the CDC data interface (class 0x0A); the Call Management descriptor's data
interface is 1; the vendor-class (0xFF) interface has number 2, which is the
bFirstInterfaceNumber of the compatible-ID table and of the function subset of the
allowed-origins table, and the interface number the extended-properties predicate accepts
as wIndex. -/
theorem interface_numbers_consistent (c : Consts) (d : DescriptorConsts)
    (h : d.Standard) (hw : d.WebUSBLengths) :
    ∃ subs origins : List (List Nat),
      splitDescriptors (configurationDesc c d) = some subs ∧
      splitDescriptors (allowedOriginsDesc d) = some origins ∧
      (ofType d.INTERFACE_DESCRIPTOR subs).map (fun sub => (sub.getD 2 0, sub.getD 5 0)) =
        [(0, CDC_CLASS), (1, CDC_CLASS_DATA), (2, CUSTOM_CLASS)] ∧
      (ofType IAD_DESCRIPTOR subs).map (fun sub => (sub.getD 2 0, sub.getD 3 0)) = [(0, 2)] ∧
      ((ofType CS_INTERFACE subs).filter
          (fun sub => sub.getD 2 0 == UNION_FUNCTIONAL_DESCRIPTOR)).map
        (fun sub => (sub.getD 3 0, sub.getD 4 0)) = [(0, 1)] ∧
      ((ofType CS_INTERFACE subs).filter
          (fun sub => sub.getD 2 0 == CALL_MANAGEMENT_FUNCTIONAL_DESCRIPTOR)).map
        (fun sub => sub.getD 4 0) = [1] ∧
      ((ofType d.INTERFACE_DESCRIPTOR subs).filter
          (fun sub => sub.getD 5 0 == CUSTOM_CLASS)).map
        (fun sub => sub.getD 2 0) = [2] ∧
      (msftCompatibleIdDescriptor c).getD 16 0 = 2 ∧
      origins.length = 3 ∧
      descriptorType (origins.getD 2 []) = d.WEBUSB_FUNCTION_SUBSET_HEADER ∧
      (origins.getD 2 []).getD 2 0 = 2 ∧
      (allowedOriginsDesc d).getD 11 0 = 2 ∧
      WEBUSB_INTERFACE_NUMBER = 2 ∧
      (∀ s : SETUP_PACKET, s.bmRequestType.Type_ = c.VENDOR_TYPE →
        s.bmRequestType.Recipient = c.INTERFACE_RECIPIENT →
        s.bRequest = c.WINUSB_VENDOR_CODE → s.wIndex = 2 →
        isExtendedPropertiesRequest c s) := by
  obtain ⟨h1, h2, h3, h4, h5, h6, h7, h8⟩ := h
  obtain ⟨w1, w2, w3⟩ := hw
  cases d
  simp only at h1 h2 h3 h4 h5 h6 h7 h8 w1 w2 w3
  subst h1 h2 h3 h4 h5 h6 h7 h8 w1 w2 w3
  refine ⟨_, _, rfl, rfl, rfl, rfl, rfl, rfl, rfl, rfl, rfl, rfl, rfl, rfl, rfl, ?_⟩
  intro s hT hI hB hX
  exact ⟨hT, hI, hB, Or.inr hX⟩

/-- Instance of C20 at the USB 2.0 and WebUSB draft values: the interface descriptors found by
walking the configuration descriptor carry the numbers 0, 1 and 2. -/
theorem interface_numbers_consistent_witness :
    usbDescriptorConsts.Standard ∧ usbDescriptorConsts.WebUSBLengths ∧
    (splitDescriptors (configurationDesc usbConsts usbDescriptorConsts)).map
        (fun subs => (ofType usbDescriptorConsts.INTERFACE_DESCRIPTOR subs).map
          (fun sub => sub.getD 2 0)) =
      some [0, 1, 2] := by
  have hs : usbDescriptorConsts.Standard := ⟨rfl, rfl, rfl, rfl, rfl, rfl, rfl, rfl⟩
  have hl : usbDescriptorConsts.WebUSBLengths := ⟨rfl, rfl, rfl⟩
  obtain ⟨subs, _, hsplit, _, hnum, _⟩ :=
    interface_numbers_consistent usbConsts usbDescriptorConsts hs hl
  refine ⟨hs, hl, ?_⟩
  rw [hsplit, Option.map_some']
  have hmap := congrArg (List.map Prod.fst) hnum
  simpa using hmap

/-! ## LineCoding over sequences of operations -/

/-- The chain does not write LineCoding. -/
theorem osDescriptorChain_line_coding (c : Consts) (r : Device × Bool) :
    (osDescriptorChain c r).1.cdc_line_coding = r.1.cdc_line_coding := by
  unfold osDescriptorChain
  dsimp only
  split_ifs <;> rfl

/-- The class block does not write LineCoding. -/
theorem cdcClassBlock_line_coding (c : Consts) (r : Device × Bool) :
    (cdcClassBlock c r).1.cdc_line_coding = r.1.cdc_line_coding := by
  unfold cdcClassBlock
  dsimp only
  split_ifs <;> rfl

/-- The fallback does not write LineCoding. -/
theorem webusbFallback_line_coding (e : Collaborators) (r : Device × Bool) :
    (webusbFallback e r).1.cdc_line_coding = r.1.cdc_line_coding := by
  unfold webusbFallback
  dsimp only
  split_ifs <;> rfl

/-- The dispatcher does not write LineCoding, whatever the setup packet. -/
theorem USBCallback_request_line_coding (c : Consts) (e : Collaborators) (st : Device) :
    (USBCallback_request c e st).1.cdc_line_coding = st.cdc_line_coding := by
  unfold USBCallback_request
  rw [webusbFallback_line_coding, cdcClassBlock_line_coding, osDescriptorChain_line_coding]

/-- Selecting a configuration does not write LineCoding. -/
theorem USBCallback_setConfiguration_line_coding (c : Consts) (e : Collaborators) (v : Nat)
    (st : Device) :
    (USBCallback_setConfiguration c e v st).1.cdc_line_coding = st.cdc_line_coding := by
  unfold USBCallback_setConfiguration
  split_ifs <;> rfl

/-- Reading does not write LineCoding. -/
theorem read_line_coding (c : Consts) (e : Collaborators) (isCDC blocking : Bool)
    (st : Device) :
    (read c e isCDC blocking st).1.cdc_line_coding = st.cdc_line_coding := by
  unfold read
  dsimp only
  split_ifs <;> rfl

/-- Writing does not write LineCoding. -/
theorem write_line_coding (c : Consts) (e : Collaborators) (buffer : List Nat) (size : Nat)
    (isCDC : Bool) (st : Device) :
    (write c e buffer size isCDC st).1.cdc_line_coding = st.cdc_line_coding := by
  unfold write
  split_ifs <;> rfl

/-- No single operation writes LineCoding. -/
theorem applyOperation_line_coding (c : Consts) (e : Collaborators) (op : Operation)
    (st : Device) :
    (applyOperation c e op st).cdc_line_coding = st.cdc_line_coding := by
  cases op with
  | request t => exact USBCallback_request_line_coding c e _
  | dataPhase buf => rfl
  | setConfiguration v => exact USBCallback_setConfiguration_line_coding c e v st
  | read isCDC blocking => exact read_line_coding c e isCDC blocking st
  | write buffer size isCDC => exact write_line_coding c e buffer size isCDC st

/-- No sequence of operations writes LineCoding. -/
theorem runOperations_line_coding (c : Consts) (e : Collaborators) (ops : List Operation)
    (st : Device) :
    (runOperations c e ops st).cdc_line_coding = st.cdc_line_coding := by
  induction ops generalizing st with
  | nil => rfl
  | cons op rest ih =>
    unfold runOperations
    rw [ih, applyOperation_line_coding]

/-- C21: LineCoding is constant. For every device state, every collaborator behaviour and
every finite sequence of operations of the class (the dispatcher on arbitrary control
transfers, completed data phases with arbitrary bytes, `USBCallback_setConfiguration`,
`read`, `write`), the LineCoding record after the sequence is the record before it. So on a
device whose record is the initial one, every GET_LINE_CODING that follows (CLASS being
different from STANDARD and VENDOR) is handled and answers 80 25 00 00 00 00 08.
SET_LINE_CODING itself changes only the transfer's remaining and notify fields, and the
completed data phase stores none of the received bytes. -/
theorem lineCoding_constant (c : Consts) (e : Collaborators) (ops : List Operation)
    (st : Device)
    (hSC : c.STANDARD_TYPE ≠ c.CLASS_TYPE) (hVC : c.VENDOR_TYPE ≠ c.CLASS_TYPE)
    (hinit : st.cdc_line_coding = cdc_line_coding_init) :
    (runOperations c e ops st).cdc_line_coding = st.cdc_line_coding ∧
    (∀ t : CONTROL_TRANSFER, isClassRequest c CDC_GET_LINE_CODING t.setup →
      (USBCallback_request c e { runOperations c e ops st with transfer := t }).2 = true ∧
      response c (USBCallback_request c e
          { runOperations c e ops st with transfer := t }).1 =
        some [0x80, 0x25, 0x00, 0x00, 0x00, 0x00, 0x08]) ∧
    (∀ t : CONTROL_TRANSFER, isClassRequest c CDC_SET_LINE_CODING t.setup →
      applyOperation c e (Operation.request t) st =
        { st with transfer := { t with remaining := 7, notify := true } }) ∧
    (∀ buf : List Nat,
      (applyOperation c e (Operation.dataPhase buf) st).cdc_line_coding = st.cdc_line_coding ∧
      (applyOperation c e (Operation.dataPhase buf) st).cdc_connected = st.cdc_connected) := by
  have hrun := runOperations_line_coding c e ops st
  refine ⟨hrun, fun t ht => ?_, fun t ht => ?_, fun buf => ⟨rfl, rfl⟩⟩
  · rw [USBCallback_request_getLineCoding c e _ hSC hVC ht]
    refine ⟨rfl, ?_⟩
    simp only [response, declareAnswer, bytesAt, Option.map_some', hrun, hinit]
    rfl
  · show (USBCallback_request c e { st with transfer := t }).1 = _
    rw [USBCallback_request_setLineCoding c e _ hSC hVC ht]

/-- Instance of C21: after the sample session (a SET_LINE_CODING with 115200 baud included) on
a fresh device, GET_LINE_CODING still answers 80 25 00 00 00 00 08. -/
theorem lineCoding_constant_witness :
    usbConsts.STANDARD_TYPE ≠ usbConsts.CLASS_TYPE ∧
    usbConsts.VENDOR_TYPE ≠ usbConsts.CLASS_TYPE ∧
    (freshDevice usbConsts (classRequest usbConsts 0 0 0)).cdc_line_coding =
      cdc_line_coding_init ∧
    (runOperations usbConsts quietCollaborators sampleSession
      (freshDevice usbConsts (classRequest usbConsts 0 0 0))).cdc_connected = true ∧
    response usbConsts (USBCallback_request usbConsts quietCollaborators
        { runOperations usbConsts quietCollaborators sampleSession
            (freshDevice usbConsts (classRequest usbConsts 0 0 0)) with
          transfer := resetTransfer usbConsts
            (classRequest usbConsts CDC_GET_LINE_CODING 0 7) }).1 =
      some [0x80, 0x25, 0x00, 0x00, 0x00, 0x00, 0x08] :=
  ⟨by decide, by decide, rfl, rfl,
    ((lineCoding_constant usbConsts quietCollaborators sampleSession
      (freshDevice usbConsts (classRequest usbConsts 0 0 0)) (by decide) (by decide) rfl).2.1
      (resetTransfer usbConsts (classRequest usbConsts CDC_GET_LINE_CODING 0 7))
      ⟨rfl, rfl⟩).2⟩

end WebUSBCDC
